import Mathlib

/-!
# Scan orchestration of libumwsu (`src/libumwsu/src/lib/scan.c`) and its clients

A shallow embedding of the scan engine: the per-file module aggregation
(`local_scan_apply_modules`, `local_scan_file`), the observer list
(`umwsu_scan_add_callback`, `umwsu_scan_call_callbacks`), the local scan path
(`local_scan_start` with its per-entry callbacks and the worker pool), the remote scan
path (`remote_scan_start` and the handlers of the protocol frames) and the end of a
session (`umwsu_scan_finish`); further the HTTP observer `scan_callback` of
`src/core/linux/daemon/api.c` and the database update `update_modules_db` of
`src/core/json/ui/update.c`.

C functions with side effects return, next to their C result, the new value of
every object they write and the list of the externally visible calls they make
(`event`), in program order.
-/

/-! ## Data model -/

/-- Modelled from the spec: `enum umwsu_status` (declared in `libumwsu/status.h`,
which is not among the sources). The enumerators are the statuses of section 3 of
the spec together with `UMWSU_EINVAL`, which `local_scan_start` returns. -/
inductive umwsu_status where
  | UMWSU_UNDECIDED
  | UMWSU_CLEAN
  | UMWSU_UNKNOWN_FILE_TYPE
  | UMWSU_EINVAL
  | UMWSU_SUSPICIOUS
  | UMWSU_MALWARE
  | UMWSU_WHITE_LISTED
  deriving DecidableEq, Repr

open umwsu_status

/-- Modelled from the spec: the numeric priority of a status, the order behind the
missing `umwsu_status_cmp`. Section 3 gives the total order
`UNDECIDED < CLEAN < UNKNOWN_FILE_TYPE < SUSPICIOUS < MALWARE` with `WHITE_LISTED`
overriding, hence on top. The spec gives the error code `UMWSU_EINVAL` no place; as
a further element of a total order that starts at the initial status `UNDECIDED` it
is ranked among the undetected outcomes, below `SUSPICIOUS`. -/
def umwsu_status_priority : umwsu_status → Nat
  | UMWSU_UNDECIDED => 0
  | UMWSU_CLEAN => 1
  | UMWSU_UNKNOWN_FILE_TYPE => 2
  | UMWSU_EINVAL => 3
  | UMWSU_SUSPICIOUS => 4
  | UMWSU_MALWARE => 5
  | UMWSU_WHITE_LISTED => 6

/-- Modelled from the spec: `umwsu_status_cmp` of `statusp.h` (the file is not among
the sources), "compare two Status values with a total order function": negative when
`s1` has lower priority than `s2`, zero when equal, positive otherwise. -/
def umwsu_status_cmp (s1 s2 : umwsu_status) : Int :=
  if umwsu_status_priority s1 < umwsu_status_priority s2 then -1
  else if umwsu_status_priority s1 = umwsu_status_priority s2 then 0
  else 1

/-- Modelled from the spec: `struct umwsu_report` (`libumwsu/scan.h` is not among the
sources): path, status, action, deciding module name and detail text, the last two
nullable. The action is kept as its numeric code. -/
structure umwsu_report where
  path : Option String
  status : umwsu_status
  action : Int
  mod_name : Option String
  mod_report : Option String
  deriving DecidableEq, Repr

/-- Modelled from the spec: `UMWSU_ACTION_NONE`, the action of a fresh report. -/
def UMWSU_ACTION_NONE : Int := 0

/-- Modelled from the spec: `umwsu_report_init` (report.c is not among the sources):
"construct a Report for a path (defaults: Status = UNDECIDED, Action = none, no
module attribution)". -/
def umwsu_report_init (path : Option String) : umwsu_report :=
  { path := path, status := UMWSU_UNDECIDED, action := UMWSU_ACTION_NONE,
    mod_name := none, mod_report := none }

/-- Modelled from the spec: `umwsu_report_change` (report.c is not among the
sources): "replace the Report's verdict with the module's name, status, and detail
text (discard the superseded detail text)". -/
def umwsu_report_change (report : umwsu_report) (status : umwsu_status)
    (mod_name : String) (mod_report : Option String) : umwsu_report :=
  { report with status := status, mod_name := some mod_name, mod_report := mod_report }

/-- A detection module, `struct umwsu_module`: its name and its scan entry point
`(*mod->scan)(path, mime_type, mod->data, &mod_report)`, with `mod->data` closed
over. The entry point yields the status and the detail text left in `mod_report`
(`none` for `NULL`). -/
structure umwsu_module where
  name : String
  scan : String → String → umwsu_status × Option String

/-- The function pointers registered as observers: the two built-in observers of
`local_scan_start` and caller-supplied ones, told apart by an identifier. -/
inductive umwsu_scan_callback_t where
  | alert_callback
  | quarantine_callback
  | user (id : Nat)
  deriving DecidableEq, Repr

/-- The externally visible calls of the engine, in program order. -/
inductive event where
  /-- The call `(*mod->scan)(path, mime_type, mod->data, &mod_report)` of the named
  module. -/
  | module_scan (mod_name : String) (path : String) (mime_type : String)
  /-- The call `printf("%s: %s\n", path, umwsu_status_str(status))`. -/
  | print (path : String) (status : umwsu_status)
  /-- The call `(*callback)(report, entry->callback_data)`. -/
  | callback (callback : umwsu_scan_callback_t) (report : umwsu_report)
      (callback_data : Option Nat)
  /-- The call `perror("stat")`. -/
  | perror_stat
  /-- The calls `magic_open(MAGIC_MIME_TYPE)` and `magic_load(m, NULL)`, with the
  handle `magic_open` returned (`none` for `NULL`). -/
  | magic_open (m : Option Nat)
  /-- The call `client_socket_create(sock_path, 10)`. -/
  | client_socket_create (sock_path : String) (max_retry : Int)
  /-- The call `protocol_handler_output_message(handler, verb, headers..., NULL)`. -/
  | output_message (verb : String) (headers : List (String × String))
  /-- The call `g_thread_pool_free(pool, immediate, wait)`. -/
  | thread_pool_free (immediate : Bool) (wait : Bool)
  deriving DecidableEq, Repr

/-! ## Module verdict aggregation -/

/-- The loop of `local_scan_apply_modules` over the modules not yet visited, with the
loop state `current_status` and `report`. Returns the final `current_status`, the
report and the module invocations made. -/
def local_scan_apply_modules_loop (path mime_type : String) :
    List umwsu_module → umwsu_status → umwsu_report →
      umwsu_status × umwsu_report × List event
  | [], current_status, report => (current_status, report, [])
  | mod :: rest, current_status, report =>
    let r := mod.scan path mime_type
    let mod_status := r.1
    let mod_report := r.2
    let next : umwsu_status × umwsu_report :=
      if umwsu_status_cmp current_status mod_status < 0 then
        (mod_status, umwsu_report_change report mod_status mod.name mod_report)
      else
        (current_status, report)
    if next.1 = UMWSU_WHITE_LISTED ∨ next.1 = UMWSU_MALWARE then
      (next.1, next.2, [event.module_scan mod.name path mime_type])
    else
      let out := local_scan_apply_modules_loop path mime_type rest next.1 next.2
      (out.1, out.2.1, event.module_scan mod.name path mime_type :: out.2.2)

/-- The function `local_scan_apply_modules(path, mime_type, mod_array, report)`:
`current_status` starts at `UMWSU_UNDECIDED`. -/
def local_scan_apply_modules (path mime_type : String) (mod_array : List umwsu_module)
    (report : umwsu_report) : umwsu_status × umwsu_report × List event :=
  local_scan_apply_modules_loop path mime_type mod_array UMWSU_UNDECIDED report

/-- The statuses the modules of a list return for a file, in list order. -/
def module_statuses (path mime_type : String) (mods : List umwsu_module) :
    List umwsu_status :=
  mods.map (fun m => (m.scan path mime_type).1)

/-- The statuses `WHITE_LISTED` and `MALWARE`. -/
def is_final_status (s : umwsu_status) : Bool :=
  decide (s = UMWSU_WHITE_LISTED) || decide (s = UMWSU_MALWARE)

/-- The prefix of a list up to and including its first element satisfying `p`; the
whole list when no element does. -/
def take_through {α : Type} (p : α → Bool) : List α → List α
  | [] => []
  | a :: l => if p a then [a] else a :: take_through p l

/-! ## Sessions and observers -/

/-- An observer, `struct callback_entry`: a callback and its context pointer (`none`
for `NULL`). -/
structure callback_entry where
  callback : umwsu_scan_callback_t
  callback_data : Option Nat
  deriving DecidableEq, Repr

/-- Modelled from the spec: `enum umwsu_scan_flags` (`libumwsu/scan.h` is not among
the sources), the session flags "recurse, threaded"; `scan->flags &
UMWSU_SCAN_THREADED` reads `threaded`, `scan->flags & UMWSU_SCAN_RECURSE` reads
`recurse`. -/
structure umwsu_scan_flags where
  threaded : Bool
  recurse : Bool
  deriving DecidableEq, Repr

/-- Modelled from the spec: the library handle `struct umwsu` as far as the engine
uses it: `umwsu_get_verbose`, `umwsu_is_remote`, `conf_get` and the module resolver
`umwsu_get_applicable_modules(umwsu, magic, path, &mime_type)`, which yields the
module array (`none` for `NULL`) and the content type it stores in `mime_type`. -/
structure umwsu where
  verbose : Int
  is_remote : Bool
  conf_get : String → String → Option String
  get_applicable_modules : Option Nat → String → Option (List umwsu_module) × String

/-- A worker pool, `GThreadPool`, seen from the engine: its size and the items pushed
on it, oldest first. -/
structure GThreadPool where
  max_threads : Int
  queue : List String
  deriving DecidableEq, Repr

/-- A thread-private key, `GPrivate`: the value each thread has stored under the key,
as pairs of thread and value. A thread without a pair reads `NULL`. -/
structure GPrivate where
  slots : List (Nat × Nat)
  deriving DecidableEq, Repr

/-- The handlers registered on the protocol handler of the remote path. -/
inductive protocol_handler_cb_t where
  | remote_scan_cb_scan_start
  | remote_scan_cb_scan_file
  | remote_scan_cb_scan_end
  deriving DecidableEq, Repr

/-- Modelled from the spec: `struct protocol_handler` (`protocol.h` is not among the
sources): the two descriptors it was created on, the handlers registered per verb, in
registration order, and the headers of the frame being handled. -/
structure protocol_handler where
  input : Int
  output : Int
  callbacks : List (String × protocol_handler_cb_t)
  headers : List (String × String)
  deriving DecidableEq, Repr

/-- The session, `struct umwsu_scan`. The members of the anonymous union are kept as
separate fields, `local_` for `scan->local` and `remote_` for `scan->remote`; the two
trailing members `thread_pool` and `private_magic_key` are never accessed. -/
structure umwsu_scan where
  umwsu : umwsu
  path : String
  flags : umwsu_scan_flags
  callbacks : List callback_entry
  is_remote : Bool
  local_thread_pool : Option GThreadPool
  local_private_magic_key : Option GPrivate
  remote_sock : Int
  remote_handler : Option protocol_handler

/-- What the engine asks of the operating system, and the values of the objects it
reads without having written them. -/
structure host where
  /-- The result of `stat(path, &sb)`: the `st_mode` stored in `sb`, or `none` when
  `stat` returns -1 and leaves `sb` untouched. -/
  stat : String → Option Nat
  /-- Modelled from the spec: the entries `dir_map` (dir.c is not among the sources)
  yields for a root and a recursion flag: full path and `d_type`, in walk order. -/
  dir_entries : String → Bool → List (String × Nat)
  /-- The descriptor `client_socket_create` returns. -/
  client_socket_create : String → Int → Int
  /-- The content of an `enum umwsu_status` object that is read before any write. -/
  uninit_status : umwsu_status
  /-- The content of `sb.st_mode` when it is read before any write. -/
  uninit_st_mode : Nat

/-- The function `umwsu_scan_add_callback`: `g_array_append_val` of a new entry. -/
def umwsu_scan_add_callback (scan : umwsu_scan) (callback : umwsu_scan_callback_t)
    (callback_data : Option Nat) : umwsu_scan :=
  { scan with
    callbacks := scan.callbacks ++ [{ callback := callback, callback_data := callback_data }] }

/-- The loop of `umwsu_scan_call_callbacks` over the entries from index `i` on. -/
def umwsu_scan_call_callbacks_loop (report : umwsu_report) : List callback_entry → List event
  | [] => []
  | entry :: rest =>
    event.callback entry.callback report entry.callback_data ::
      umwsu_scan_call_callbacks_loop report rest

/-- The function `umwsu_scan_call_callbacks(scan, report)`. -/
def umwsu_scan_call_callbacks (scan : umwsu_scan) (report : umwsu_report) : List event :=
  umwsu_scan_call_callbacks_loop report scan.callbacks

/-! ## Local scan path -/

/-- The function `local_scan_file(scan, magic, path)`. The local `status` is not
initialised, so it starts with `h.uninit_status`. Returns the C result and the calls
made. -/
def local_scan_file (h : host) (scan : umwsu_scan) (magic : Option Nat) (path : String) :
    umwsu_status × List event :=
  let status0 := h.uninit_status
  let report0 := umwsu_report_init (some path)
  let resolved := scan.umwsu.get_applicable_modules magic path
  let modules := resolved.1
  let mime_type := resolved.2
  let applied : umwsu_status × umwsu_report × List event :=
    match modules with
    | none => (status0, { report0 with status := UMWSU_UNKNOWN_FILE_TYPE }, [])
    | some mod_array => local_scan_apply_modules path mime_type mod_array report0
  let status := applied.1
  let report := applied.2.1
  let printed : List event :=
    if scan.umwsu.verbose ≥ 3 then [event.print path status] else []
  (status, applied.2.2 ++ printed ++ umwsu_scan_call_callbacks scan report)

/-- The call `g_private_get(key)` by thread `thread`: the value the thread stored,
`none` for `NULL`. -/
def g_private_get (key : Option GPrivate) (thread : Nat) : Option Nat :=
  match key with
  | none => none
  | some k => (k.slots.find? (fun e => e.1 == thread)).map (fun e => e.2)

/-- The call `g_private_set(key, value)` by thread `thread`; storing `NULL` leaves
the thread without a value. -/
def g_private_set (key : Option GPrivate) (thread : Nat) (value : Option Nat) :
    Option GPrivate :=
  match key with
  | none => none
  | some k =>
    let others := k.slots.filter (fun e => e.1 != thread)
    match value with
    | none => some { slots := others }
    | some v => some { slots := (thread, v) :: others }

/-- The function `get_private_magic(scan)` run by thread `thread`, where `opened` is
the handle `magic_open` returns if it is called (`none` for `NULL`). Returns the
handle, the session with the thread's private slot updated and the calls made. -/
def get_private_magic (scan : umwsu_scan) (thread : Nat) (opened : Option Nat) :
    Option Nat × umwsu_scan × List event :=
  match g_private_get scan.local_private_magic_key thread with
  | some m => (some m, scan, [])
  | none =>
    (opened,
     { scan with
       local_private_magic_key := g_private_set scan.local_private_magic_key thread opened },
     [event.magic_open opened])

/-- The worker function `local_scan_entry_thread(data, user_data)` run by thread
`thread` on the pushed item `path`. -/
def local_scan_entry_thread (h : host) (thread : Nat) (opened : Option Nat) (path : String)
    (scan : umwsu_scan) : umwsu_scan × List event :=
  let got := get_private_magic scan thread opened
  let filed := local_scan_file h got.2.1 got.1 path
  (got.2.1, got.2.2 ++ filed.2)

/-- The constant `DT_DIR` of `dirent.h`. -/
def DT_DIR : Nat := 4

/-- The call `g_thread_pool_push(pool, data, NULL)`: the item joins the queue. -/
def g_thread_pool_push (pool : Option GThreadPool) (data : String) : Option GThreadPool :=
  match pool with
  | none => none
  | some p => some { p with queue := p.queue ++ [data] }

/-- The per-entry callback `local_scan_entry_threaded(full_path, dir_entry, data)`. -/
def local_scan_entry_threaded (_h : host) (full_path : String) (d_type : Nat)
    (scan : umwsu_scan) : umwsu_scan × List event :=
  if d_type = DT_DIR then (scan, [])
  else
    ({ scan with local_thread_pool := g_thread_pool_push scan.local_thread_pool full_path },
     [])

/-- The per-entry callback `local_scan_entry_non_threaded(full_path, dir_entry,
data)`. -/
def local_scan_entry_non_threaded (h : host) (full_path : String) (d_type : Nat)
    (scan : umwsu_scan) : umwsu_scan × List event :=
  if d_type = DT_DIR then (scan, [])
  else (scan, (local_scan_file h scan none full_path).2)

/-- The function `get_max_threads`. -/
def get_max_threads : Int := 8

/-- Modelled from the spec: the loop of `dir_map` (dir.c is not among the sources),
which "calls back once per entry": the callback runs on every yielded entry, in the
order the walker yields them. -/
def dir_map_loop (dirent_cb : String → Nat → umwsu_scan → umwsu_scan × List event) :
    List (String × Nat) → umwsu_scan → umwsu_scan × List event
  | [], scan => (scan, [])
  | entry :: rest, scan =>
    let called := dirent_cb entry.1 entry.2 scan
    let out := dir_map_loop dirent_cb rest called.1
    (out.1, called.2 ++ out.2)

/-- Modelled from the spec: `dir_map(path, recurse, dirent_cb, data)` (dir.c is not
among the sources) on the entries the walker yields for `path`. -/
def dir_map (h : host) (path : String) (recurse : Bool)
    (dirent_cb : String → Nat → umwsu_scan → umwsu_scan × List event) (scan : umwsu_scan) :
    umwsu_scan × List event :=
  dir_map_loop dirent_cb (h.dir_entries path recurse) scan

/-- The mask `S_IFMT` of `sys/stat.h`. -/
def S_IFMT : Nat := 0o170000

/-- The macro `S_ISREG` of `sys/stat.h`. -/
def S_ISREG (st_mode : Nat) : Bool := st_mode &&& S_IFMT == 0o100000

/-- The macro `S_ISDIR` of `sys/stat.h`. -/
def S_ISDIR (st_mode : Nat) : Bool := st_mode &&& S_IFMT == 0o040000

/-- The function `local_scan_start(scan)`. Returns the C result, the session as the
function leaves it and the calls made. -/
def local_scan_start (h : host) (scan0 : umwsu_scan) : umwsu_status × umwsu_scan × List event :=
  let scan1 := umwsu_scan_add_callback scan0 umwsu_scan_callback_t.alert_callback none
  let scan2 := umwsu_scan_add_callback scan1 umwsu_scan_callback_t.quarantine_callback none
  let scan : umwsu_scan :=
    if scan2.flags.threaded then
      { scan2 with
        local_thread_pool := some { max_threads := get_max_threads, queue := [] },
        local_private_magic_key := some { slots := [] } }
    else
      { scan2 with local_thread_pool := none, local_private_magic_key := none }
  let statted : Nat × List event :=
    match h.stat scan.path with
    | some st_mode => (st_mode, [])
    | none => (h.uninit_st_mode, [event.perror_stat])
  let st_mode := statted.1
  if S_ISREG st_mode then
    let filed := local_scan_file h scan none scan.path
    (filed.1, scan, statted.2 ++ filed.2)
  else if S_ISDIR st_mode then
    let threaded := scan.flags.threaded
    let recurse := scan.flags.recurse
    let walked :=
      dir_map h scan.path recurse
        (if threaded then local_scan_entry_threaded h else local_scan_entry_non_threaded h)
        scan
    (UMWSU_CLEAN, walked.1, statted.2 ++ walked.2)
  else
    (UMWSU_EINVAL, scan, statted.2)

/-- The pool running its worker function `local_scan_entry_thread` once on each item
of a schedule, one call after the other. A schedule gives, per item, the thread that
takes it, the handle `magic_open` would return to that call, and the pushed path. -/
def thread_pool_run (h : host) : List (Nat × Option Nat × String) → umwsu_scan →
    umwsu_scan × List event
  | [], scan => (scan, [])
  | job :: rest, scan =>
    let done := local_scan_entry_thread h job.1 job.2.1 job.2.2 scan
    let out := thread_pool_run h rest done.1
    (out.1, done.2 ++ out.2)

/-! ## Remote scan path and session entry points -/

/-- Modelled from the spec: `protocol_handler_new(in, out)` (`protocol.h` is not
among the sources): a handler on the two descriptors with no handler registered. -/
def protocol_handler_new (input output : Int) : protocol_handler :=
  { input := input, output := output, callbacks := [], headers := [] }

/-- Modelled from the spec: `protocol_handler_add_callback(handler, verb, cb, data)`
(`protocol.h` is not among the sources): registers `cb` for the frames of `verb`. -/
def protocol_handler_add_callback (handler : protocol_handler) (verb : String)
    (cb : protocol_handler_cb_t) : protocol_handler :=
  { handler with callbacks := handler.callbacks ++ [(verb, cb)] }

/-- The function `remote_scan_start(scan)`. `none` is the failed
`assert(sock_path != NULL)`. The function has no `return` statement, so its result is
`h.uninit_status`. -/
def remote_scan_start (h : host) (scan : umwsu_scan) :
    Option (umwsu_status × umwsu_scan × List event) :=
  match scan.umwsu.conf_get "remote" "socket-path" with
  | none => none
  | some sock_path =>
    let sock := h.client_socket_create sock_path 10
    let handler0 := protocol_handler_new sock sock
    let handler1 := protocol_handler_add_callback handler0 "SCAN_START"
      protocol_handler_cb_t.remote_scan_cb_scan_start
    let handler2 := protocol_handler_add_callback handler1 "SCAN_FILE"
      protocol_handler_cb_t.remote_scan_cb_scan_file
    let handler3 := protocol_handler_add_callback handler2 "SCAN_END"
      protocol_handler_cb_t.remote_scan_cb_scan_end
    some (h.uninit_status,
      { scan with remote_sock := sock, remote_handler := some handler3 },
      [event.client_socket_create sock_path 10,
       event.output_message "SCAN" [("Path", scan.path)]])

/-- The function `umwsu_scan_new(umwsu, path, flags)`. The block `malloc` returns has
indeterminate content `block`; the function writes five members and leaves the union
as it found it. -/
def umwsu_scan_new (block : umwsu_scan) (u : umwsu) (path : String)
    (flags : umwsu_scan_flags) : umwsu_scan :=
  { block with umwsu := u, path := path, flags := flags, callbacks := [],
               is_remote := u.is_remote }

/-- The function `umwsu_scan_start(scan)`. -/
def umwsu_scan_start (h : host) (scan : umwsu_scan) :
    Option (umwsu_status × umwsu_scan × List event) :=
  if scan.is_remote then remote_scan_start h scan
  else some (local_scan_start h scan)

/-- A frame of the wire protocol: its verb and its headers, in the order received. -/
structure protocol_frame where
  verb : String
  headers : List (String × String)
  deriving DecidableEq, Repr

/-- Modelled from the spec: `protocol_handler_header_value(h, name)` (`protocol.h` is
not among the sources): the value of the named header of the frame being handled,
`none` (`NULL`) when the frame has no such header. -/
def protocol_handler_header_value (h : protocol_handler) (name : String) : Option String :=
  (h.headers.find? (fun kv => kv.1 == name)).map (fun kv => kv.2)

/-- The function `isspace` of `ctype.h` in the C locale. -/
def isspace (c : Char) : Bool :=
  decide (c.toNat = 32) || (decide (9 ≤ c.toNat) && decide (c.toNat ≤ 13))

/-- The digits read by `atoi`: the decimal value of the longest run of digits at the
head of the text, on top of the value read so far. -/
def atoi_digits : List Char → Nat → Nat
  | [], acc => acc
  | c :: rest, acc =>
    if c.isDigit then atoi_digits rest (acc * 10 + (c.toNat - 48)) else acc

/-- The function `atoi` of `stdlib.h`, as glibc computes it, `(int) strtol(nptr, NULL,
10)`: leading white space is skipped, an optional sign and the digits are read, the
value is held to the range of `long` and converted to `int`. -/
def atoi (nptr : String) : Int :=
  let text := nptr.toList.dropWhile isspace
  let parsed : Int :=
    match text with
    | '-' :: rest => - ((atoi_digits rest 0 : Nat) : Int)
    | '+' :: rest => ((atoi_digits rest 0 : Nat) : Int)
    | _ => ((atoi_digits text 0 : Nat) : Int)
  let as_long : Int := max (-(2 ^ 63)) (min (2 ^ 63 - 1) parsed)
  (as_long + 2 ^ 31) % 2 ^ 32 - 2 ^ 31

/-- The handler `remote_scan_cb_scan_start(h, data)`: an empty body. -/
def remote_scan_cb_scan_start (_h : protocol_handler) (_scan : umwsu_scan) : List event := []

/-- The handler `remote_scan_cb_scan_file(h, data)`. The cast `(enum
umwsu_status)atoi(status)` is `status_of_int`, the enumerator an integer stands for;
the values of the enumerators are fixed by the absent `status.h`. `none` is the
undefined behaviour of `atoi` on a null pointer. -/
def remote_scan_cb_scan_file (status_of_int : Int → umwsu_status) (h : protocol_handler)
    (scan : umwsu_scan) : Option (List event) :=
  let path := protocol_handler_header_value h "Path"
  let status := protocol_handler_header_value h "Status"
  let x_status := protocol_handler_header_value h "X-Status"
  let action := protocol_handler_header_value h "Action"
  let report0 := umwsu_report_init path
  match status, action with
  | some status, some action =>
    let report : umwsu_report :=
      { report0 with
        status := status_of_int (atoi status),
        action := atoi action,
        mod_name := some "unknown",
        mod_report := x_status }
    some (umwsu_scan_call_callbacks scan report)
  | _, _ => none

/-- The handler `remote_scan_cb_scan_end(h, data)`: an empty body. -/
def remote_scan_cb_scan_end (_h : protocol_handler) (_scan : umwsu_scan) : List event := []

/-- The call of a registered handler through its function pointer. -/
def protocol_handler_call (status_of_int : Int → umwsu_status) (cb : protocol_handler_cb_t)
    (h : protocol_handler) (scan : umwsu_scan) : Option (List event) :=
  match cb with
  | protocol_handler_cb_t.remote_scan_cb_scan_start => some (remote_scan_cb_scan_start h scan)
  | protocol_handler_cb_t.remote_scan_cb_scan_file =>
    remote_scan_cb_scan_file status_of_int h scan
  | protocol_handler_cb_t.remote_scan_cb_scan_end => some (remote_scan_cb_scan_end h scan)

/-- Modelled from the spec: the handlers of a received frame (protocol.c is not among
the sources): every handler registered for the verb of the frame is called, in
registration order. `none` when a handler runs into undefined behaviour. -/
def protocol_handler_dispatch (status_of_int : Int → umwsu_status) (h : protocol_handler)
    (scan : umwsu_scan) (verb : String) :
    List (String × protocol_handler_cb_t) → Option (List event)
  | [] => some []
  | entry :: rest =>
    if entry.1 = verb then
      match protocol_handler_call status_of_int entry.2 h scan with
      | none => none
      | some called =>
        match protocol_handler_dispatch status_of_int h scan verb rest with
        | none => none
        | some out => some (called ++ out)
    else protocol_handler_dispatch status_of_int h scan verb rest

/-- Modelled from the spec: the receive side of the protocol handler (protocol.c is
not among the sources): the frames are handled one after the other, in the order they
arrive, each with its own headers. -/
def protocol_handler_input (status_of_int : Int → umwsu_status) (h : protocol_handler)
    (scan : umwsu_scan) : List protocol_frame → Option (List event)
  | [] => some []
  | frame :: rest =>
    match protocol_handler_dispatch status_of_int { h with headers := frame.headers } scan
        frame.verb h.callbacks with
    | none => none
    | some handled =>
      match protocol_handler_input status_of_int h scan rest with
      | none => none
      | some out => some (handled ++ out)

/-! ## Finishing a session -/

/-- The calls of the worker function the pool makes while it empties a queue. Which
thread takes an item, what `magic_open` returns to it and in which order the items
are taken is not fixed by GLib: `schedule` proposes these, item by item. A proposal is
followed when its path is waiting, and that item leaves the queue; a proposal for a
path that is not waiting is passed over. The items no proposal names are taken last,
oldest first, by thread 0. -/
def thread_pool_take : List (Nat × Option Nat × String) → List String →
    List (Nat × Option Nat × String)
  | [], waiting => waiting.map (fun path => (0, some 0, path))
  | job :: rest, waiting =>
    if job.2.2 ∈ waiting then job :: thread_pool_take rest (waiting.erase job.2.2)
    else thread_pool_take rest waiting

/-- The function `g_thread_pool_free(pool, immediate, wait)` of GLib on the pool of a
session. With `immediate` false and `wait` true the call returns only when the workers
have taken every item of `pool->queue`, each once: the worker calls are those of
`thread_pool_take` on the queue, run as in `thread_pool_run`, and the queue is empty
afterwards. In the other modes the call returns with the queue as it is. The session
keeps its pointer to the released pool. -/
def g_thread_pool_free (h : host) (schedule : List (Nat × Option Nat × String))
    (scan : umwsu_scan) (pool : GThreadPool) (immediate wait : Bool) :
    umwsu_scan × List event :=
  if immediate = false ∧ wait = true then
    let ran := thread_pool_run h (thread_pool_take schedule pool.queue) scan
    ({ ran.1 with local_thread_pool := some { pool with queue := [] } },
     event.thread_pool_free immediate wait :: ran.2)
  else
    (scan, [event.thread_pool_free immediate wait])

/-- The function `umwsu_scan_finish(scan)`. -/
def umwsu_scan_finish (h : host) (schedule : List (Nat × Option Nat × String))
    (scan : umwsu_scan) : umwsu_scan × List event :=
  match scan.local_thread_pool with
  | none => (scan, [])
  | some pool => g_thread_pool_free h schedule scan pool false true

/-! ## The HTTP observer (`src/core/linux/daemon/api.c`) -/

/-- Modelled from the spec: `ARMADITO_CLEAN` of `enum a6o_file_status` (the header of
libarmadito is not among the sources), the status `CLEAN` of the spec under its later
name. -/
def ARMADITO_CLEAN : umwsu_status := UMWSU_CLEAN

/-- Modelled from the spec: `struct a6o_report` (the header of libarmadito is not
among the sources): the report of section 3 of the spec with its progress counters,
as far as `api.c` reads it. -/
structure a6o_report where
  path : Option String
  status : umwsu_status
  action : Int
  progress : Int
  malware_count : Int
  suspicious_count : Int
  scanned_count : Int
  mod_name : Option String
  mod_report : Option String
  deriving DecidableEq, Repr

/-- What `api.c` takes from the header of libarmadito: the constant
`REPORT_PROGRESS_UNKNOWN` and the functions `a6o_file_status_pretty_str` and
`a6o_action_pretty_str`. -/
structure libarmadito where
  REPORT_PROGRESS_UNKNOWN : Int
  a6o_file_status_pretty_str : umwsu_status → String
  a6o_action_pretty_str : Int → String

/-- A value of a JSON object as `report_json` builds it. -/
inductive json_value where
  | int (n : Int)
  | string (s : String)
  deriving DecidableEq, Repr

/-- The function `report_json(report)`: the members of the JSON object in the order
they are added. -/
def report_json (lib : libarmadito) (report : a6o_report) : List (String × json_value) :=
  [("progress", json_value.int report.progress),
   ("malware_count", json_value.int report.malware_count),
   ("suspicious_count", json_value.int report.suspicious_count),
   ("scanned_count", json_value.int report.scanned_count)] ++
  (match report.path with
   | some path => [("path", json_value.string path)]
   | none => []) ++
  [("scan_status", json_value.string (lib.a6o_file_status_pretty_str report.status)),
   ("scan_action", json_value.string (lib.a6o_action_pretty_str report.action))] ++
  (match report.mod_name with
   | some mod_name => [("mod_name", json_value.string mod_name)]
   | none => []) ++
  (match report.mod_report with
   | some mod_report => [("mod_report", json_value.string mod_report)]
   | none => [])

/-- The context of the HTTP observer, `struct scan_data`: the client the events go to
and the time and progress of the last report pushed. -/
structure scan_data where
  path : String
  client : Nat
  last_send_time : Int
  last_send_progress : Int
  deriving DecidableEq, Repr

/-- The function `get_milliseconds` of the Linux build. `gettimeofday` is the pair
`tv_sec`, `tv_usec` that call stores, or `none` when it fails. The values stay within
the 64 bits of `time_t`. -/
def get_milliseconds (gettimeofday : Option (Int × Int)) : Int :=
  match gettimeofday with
  | none => 0
  | some now => now.1 * 1000 + Int.tdiv now.2 1000

/-- The macro `SEND_PERIOD`, in milliseconds. -/
def SEND_PERIOD : Int := 200

/-- The function `scan_callback(report, callback_data)`. Returns the context as the
function leaves it and the events pushed with `api_client_push_event`, each with the
client it goes to. -/
def scan_callback (lib : libarmadito) (gettimeofday : Option (Int × Int))
    (report : a6o_report) (callback_data : scan_data) :
    scan_data × List (Nat × List (String × json_value)) :=
  let now := get_milliseconds gettimeofday
  if report.status = ARMADITO_CLEAN
      ∧ report.progress ≠ 100
      ∧ callback_data.last_send_progress ≠ lib.REPORT_PROGRESS_UNKNOWN
      ∧ callback_data.last_send_progress = report.progress
      ∧ callback_data.last_send_time ≠ 0
      ∧ now - callback_data.last_send_time < SEND_PERIOD then
    (callback_data, [])
  else
    let j_report := report_json lib report
    ({ callback_data with last_send_time := now, last_send_progress := report.progress },
     [(callback_data.client, j_report)])

/-! ## Database update (`src/core/json/ui/update.c`) -/

/-- The function `strncmp` of `string.h` on two buffers of bytes: the difference of
the first pair of bytes that differ among the first `n`, 0 when there is none before
the end of the `n` bytes or before a zero byte in both. `none` when the comparison
runs past the end of a buffer. -/
def strncmp : List Nat → List Nat → Nat → Option Int
  | _, _, 0 => some 0
  | c1 :: rest1, c2 :: rest2, n + 1 =>
    if c1 ≠ c2 then some ((c1 : Int) - (c2 : Int))
    else if c1 = 0 then some 0
    else strncmp rest1 rest2 n
  | [], _, _ + 1 => none
  | _ :: _, [], _ + 1 => none

/-- A C string as a buffer of bytes: the codes of its characters and the terminating
zero byte. -/
def c_string (s : String) : List Nat :=
  s.toList.map Char.toNat ++ [0]

/-- The constant `MAX_PATH` of the Windows headers. -/
def MAX_PATH : Nat := 260

/-- A package of the database description, `Package` (`json_process.h` is not among
the sources), as far as `update.c` reads it. -/
structure Package where
  displayname : String
  fileurl : String
  controlsum : String
  controltype : String
  licence : String
  cachefilename : Option String
  deriving DecidableEq, Repr

/-- What the update asks of the system and of the functions that are not in
`update.c`: the outcome of every such call during one run. -/
structure update_host where
  /-- The result of `GetModuleFileNameA`: the path of the executable, `none` on
  failure. -/
  GetModuleFileNameA : Option String
  /-- The result of `CopyFileA(source, destination, FALSE)`. -/
  CopyFileA : Option String → Option String → Bool
  /-- The result of `GetLocationCompletepath(DB_CACHE_PATH)`, `none` for `NULL`. -/
  GetLocationCompletepath : Option String
  /-- The result of `GetFileContent_b(db_cachefile, &size)`: the buffer, `none` for
  `NULL`, and the value left in `size`. -/
  GetFileContent_b : String → Option (List Nat) × Int
  /-- The `HRESULT` of the download of the database description. -/
  download_description : Int
  /-- The `HRESULT` of the download of the signature of the description. -/
  download_signature : Int
  /-- The result of `verify_file_signature(desc_filename, sig_filename)`. -/
  verify_file_signature : Int
  /-- The result of `GetFileContent(desc_filename, &desc_size)`: the buffer, `none`
  for `NULL`, and the value left in `desc_size`. -/
  GetFileContent : Option String × Int
  /-- The result of `GetFileHash(desc, desc_size, CALG_MD5)`, `none` for `NULL`. -/
  GetFileHash : Option (List Nat)
  /-- The result of `ParseDescriptionFile(desc, &nbPackages)`: the package list,
  `none` for `NULL`; `nbPackages` is its length. -/
  ParseDescriptionFile : Option (List Package)
  /-- The result of `DownloadPackageFiles(packageList, nbPackages)`. -/
  DownloadPackageFiles : Int
  /-- The result of `ServicePause()`. -/
  ServicePause : Int
  /-- The result of `ServiceUnloadProcedure()`. -/
  ServiceUnloadProcedure : Int
  /-- The result of `ServiceContinue()`. -/
  ServiceContinue : Int
  /-- The result of `ServiceLoadProcedure()`. -/
  ServiceLoadProcedure : Int
  /-- The result of `SaveHashInCacheFile(hash)`. -/
  SaveHashInCacheFile : Int

/-- The position of the last occurrence of a character, as `strrchr` finds it, from
position `i` on, with the last position found so far. -/
def strrchr_from (c : Char) : List Char → Nat → Option Nat → Option Nat
  | [], _, found => found
  | x :: rest, i, found => strrchr_from c rest (i + 1) (if x = c then some i else found)

/-- The function `BuildCompleteDBpath(filename, module)`. The outer `none` is the read
of `strnlen` through the null `module_db_dir` of a module that is neither `clamav`
nor `module5_2_win`; the inner `none` is the result `NULL`. -/
def BuildCompleteDBpath (env : update_host) (filename module : Option String) :
    Option (Option String) :=
  match filename, module with
  | some filename, some module =>
    match env.GetModuleFileNameA with
    | none => some none
    | some filepath =>
      match strrchr_from (Char.ofNat 92) filepath.toList 0 none with
      | none => some none
      | some dir_len =>
        let dirpath := filepath.take dir_len
        let module_db_dir : Option String :=
          if strncmp (c_string module) (c_string "clamav") 6 = some 0 then
            some "DB\\clamav\\"
          else if strncmp (c_string module) (c_string "module5_2_win") 9 = some 0 then
            some "DB\\module5_2\\"
          else if strncmp (c_string module) (c_string "module5_2_lin") 13 = some 0 then
            none
          else
            none
        let module_dir := "modules"
        match module_db_dir with
        | none => none
        | some db_dir =>
          some (some (dirpath ++ "\\" ++ module_dir ++ "\\" ++ db_dir ++
            filename.take MAX_PATH))
  | _, _ => some none

/-- The loop of `CopyModulesDatabaseFiles` over the packages not yet visited. Returns
the calls of `CopyFileA` made, source and destination; a call that fails ends the
loop (`__leave`). `none` when `BuildCompleteDBpath` does not return. -/
def CopyModulesDatabaseFiles_loop (env : update_host) :
    List Package → Option (List (Option String × Option String))
  | [] => some []
  | pkg :: rest =>
    if strncmp (c_string pkg.licence) (c_string "clamav") 3 = some 0 then
      match BuildCompleteDBpath env (some pkg.displayname) (some pkg.licence) with
      | none => none
      | some dbfilepath =>
        if env.CopyFileA pkg.cachefilename dbfilepath = false then
          some [(pkg.cachefilename, dbfilepath)]
        else
          match CopyModulesDatabaseFiles_loop env rest with
          | none => none
          | some calls => some ((pkg.cachefilename, dbfilepath) :: calls)
    else if strncmp (c_string pkg.licence) (c_string "module5_2_win") 13 = some 0 then
      match BuildCompleteDBpath env (some pkg.displayname) (some pkg.licence) with
      | none => none
      | some dbfilepath =>
        if env.CopyFileA pkg.cachefilename dbfilepath = false then
          some [(pkg.cachefilename, dbfilepath)]
        else
          match CopyModulesDatabaseFiles_loop env rest with
          | none => none
          | some calls => some ((pkg.cachefilename, dbfilepath) :: calls)
    else if strncmp (c_string pkg.licence) (c_string "module5_2_lin") 3 = some 0 then
      CopyModulesDatabaseFiles_loop env rest
    else
      CopyModulesDatabaseFiles_loop env rest

/-- The function `CopyModulesDatabaseFiles(pkgList, nbPackages)`: its result `ret`,
which no statement after the check of the parameters assigns, and the calls of
`CopyFileA` made. `none` when `BuildCompleteDBpath` does not return. -/
def CopyModulesDatabaseFiles (env : update_host) (pkgList : Option (List Package))
    (nbPackages : Int) : Option (Int × List (Option String × Option String)) :=
  let ret : Int := 0
  match pkgList with
  | none => some (-1, [])
  | some packages =>
    if nbPackages ≤ 0 then some (-1, [])
    else
      match CopyModulesDatabaseFiles_loop env (packages.take nbPackages.toNat) with
      | none => none
      | some calls => some (ret, calls)

/-- The function `CompareWithCachedHash(hash)`. `none` when `print_hexa` or `strncmp`
read past the end of a buffer that is shorter than `size`. -/
def CompareWithCachedHash (env : update_host) (hash : Option (List Nat)) : Option Int :=
  match hash with
  | none => some (-1)
  | some hash =>
    match env.GetLocationCompletepath with
    | none => some (-1)
    | some db_cachefile =>
      let got := env.GetFileContent_b db_cachefile
      let size := got.2
      match got.1 with
      | none => some 1
      | some cachedHash =>
        if size ≤ 0 then some 1
        else if hash.length < size.toNat ∨ cachedHash.length < size.toNat then none
        else
          match strncmp hash cachedHash size.toNat with
          | none => none
          | some cmp => if cmp ≠ 0 then some 1 else some 0

/-- The macro `FAILED` of the Windows headers. -/
def FAILED (hres : Int) : Bool := decide (hres < 0)

/-- The macro `SVC_MODE`. -/
def SVC_MODE : Int := 1

/-- The macro `CMD_MODE`. -/
def CMD_MODE : Int := 2

/-- The function `update_modules_db(armadito)`; `armadito` says whether the pointer is
not null. The result is the value of `ret` at the `return`; the assignments to `res`
do not reach it. `none` when `CompareWithCachedHash` or `CopyModulesDatabaseFiles`
does not return. -/
def update_modules_db (env : update_host) (armadito : Bool) : Option Int :=
  let ret : Int := 0
  let mode : Int := CMD_MODE
  if armadito = false then some (-1)
  else if FAILED env.download_description then some (-1)
  else if FAILED env.download_signature then some (-2)
  else if env.verify_file_signature < 0 then some (-3)
  else if env.GetFileContent.1 = none ∨ env.GetFileContent.2 ≤ 0 then some (-4)
  else
    match env.GetFileHash with
    | none => some (-5)
    | some hash =>
      match CompareWithCachedHash env (some hash) with
      | none => none
      | some res =>
        if res < 0 then some (-6)
        else if res = 0 then some ret
        else
          match env.ParseDescriptionFile with
          | none => some ret
          | some packageList =>
            let nbPackages : Int := packageList.length
            if env.DownloadPackageFiles < 0 then some ret
            else
              let unloaded : Int × Bool :=
                if mode = SVC_MODE then
                  if env.ServicePause < 0 then (-8, true) else (ret, false)
                else if mode = CMD_MODE then
                  if env.ServiceUnloadProcedure ≠ 0 then (-8, false)
                  else (env.ServiceUnloadProcedure, false)
                else (ret, false)
              if unloaded.2 then some unloaded.1
              else
                match CopyModulesDatabaseFiles env (some packageList) nbPackages with
                | none => none
                | some copied =>
                  if copied.1 < 0 then some unloaded.1
                  else if mode = SVC_MODE then
                    if env.ServiceContinue < 0 then some (-10) else some unloaded.1
                  else if mode = CMD_MODE then
                    if env.ServiceLoadProcedure ≠ 0 then some (-10)
                    else some env.ServiceLoadProcedure
                  else some unloaded.1

/-- The two values of `enum a6o_json_status` that `update_response_cb` uses. -/
inductive a6o_json_status where
  | JSON_OK
  | JSON_UNEXPECTED_ERR
  deriving DecidableEq, Repr

/-- The function `update_response_cb(armadito, req, resp, request_data)`. `none` when
`update_modules_db` does not return. -/
def update_response_cb (env : update_host) (armadito : Bool) : Option a6o_json_status :=
  match update_modules_db env armadito with
  | none => none
  | some ret =>
    if ret ≠ 0 then some a6o_json_status.JSON_UNEXPECTED_ERR
    else some a6o_json_status.JSON_OK

/-! ## Reading traces -/

/-- The modules of a list that `local_scan_apply_modules` reaches for a file starting
from a status that is neither `WHITE_LISTED` nor `MALWARE`: those up to and including
the first that returns one of the two. -/
def invoked_modules (path mime_type : String) (mods : List umwsu_module) :
    List umwsu_module :=
  take_through (fun m => is_final_status (m.scan path mime_type).1) mods

/-- The report an event hands to the observer `(cb, data)`, if it is a delivery to
that observer. -/
def delivered_report (cb : umwsu_scan_callback_t) (data : Option Nat) :
    event → Option umwsu_report
  | event.callback c r d => if c = cb ∧ d = data then some r else none
  | _ => none

/-- The reports an observer receives in a trace, in order of delivery. -/
def delivered_reports (cb : umwsu_scan_callback_t) (data : Option Nat)
    (trace : List event) : List umwsu_report :=
  trace.filterMap (delivered_report cb data)

/-- Whether an event is a delivery to an observer. -/
def is_callback_event : event → Bool
  | event.callback _ _ _ => true
  | _ => false

/-- Whether an event is a module invocation. -/
def is_module_scan_event : event → Bool
  | event.module_scan _ _ _ => true
  | _ => false

/-- The entries of a walk that are not directories. -/
def non_directory_entries (entries : List (String × Nat)) : List (String × Nat) :=
  entries.filter (fun e => decide (e.2 ≠ DT_DIR))

/-- Whether an event is a call of `magic_open`. -/
def is_magic_open_event : event → Bool
  | event.magic_open _ => true
  | _ => false

/-- Whether an event is a call of `g_thread_pool_free`. -/
def is_thread_pool_free_event : event → Bool
  | event.thread_pool_free _ _ => true
  | _ => false

/-- The report the spec describes for a `SCAN_FILE` frame: the path of the `Path`
header, status and action decoded from the `Status` and `Action` headers, the detail
text of the `X-Status` header, and a module name that says nothing. -/
def scan_file_report (status_of_int : Int → umwsu_status) (frame : protocol_frame) :
    umwsu_report :=
  { path := (frame.headers.find? (fun kv => kv.1 == "Path")).map (fun kv => kv.2),
    status := status_of_int
      (atoi (((frame.headers.find? (fun kv => kv.1 == "Status")).map (fun kv => kv.2)).getD "")),
    action :=
      atoi (((frame.headers.find? (fun kv => kv.1 == "Action")).map (fun kv => kv.2)).getD ""),
    mod_name := some "unknown",
    mod_report := (frame.headers.find? (fun kv => kv.1 == "X-Status")).map (fun kv => kv.2) }

/-- Whether a frame has a header of the given name. -/
def has_header (frame : protocol_frame) (name : String) : Bool :=
  frame.headers.any (fun kv => kv.1 == name)

/-- A module of the given name that reports `UNDECIDED` with no detail text. -/
def module_undecided (name : String) : umwsu_module :=
  { name := name, scan := fun _ _ => (UMWSU_UNDECIDED, none) }

/-! ## Concrete sessions used to evaluate the code -/

/-- A host on which every path is a regular file and reads before writes find
`UMWSU_CLEAN`. -/
def host_regular_file : host :=
  { stat := fun _ => some 0o100644,
    dir_entries := fun _ _ => [],
    client_socket_create := fun _ _ => 3,
    uninit_status := UMWSU_CLEAN,
    uninit_st_mode := 0 }

/-- A host on which every path is a directory holding a file, a sub-directory and
another file. -/
def host_directory : host :=
  { stat := fun _ => some 0o040755,
    dir_entries := fun _ _ => [("/srv/a", 8), ("/srv/sub", 4), ("/srv/b", 8)],
    client_socket_create := fun _ _ => 3,
    uninit_status := UMWSU_CLEAN,
    uninit_st_mode := 0 }

/-- A host on which `stat` fails for every path and the memory of `sb.st_mode` holds
the mode of a regular file. -/
def host_stat_fails : host :=
  { stat := fun _ => none,
    dir_entries := fun _ _ => [],
    client_socket_create := fun _ _ => 3,
    uninit_status := UMWSU_CLEAN,
    uninit_st_mode := 0o100644 }

/-- A module that flags every file as malware. -/
def module_malware (name : String) : umwsu_module :=
  { name := name, scan := fun _ _ => (UMWSU_MALWARE, some "Eicar-Test-Signature") }

/-- A decoding of integers as statuses by their priority; integers that are no
priority decode as `UNDECIDED`. -/
def status_of_priority (n : Int) : umwsu_status :=
  if n = 1 then UMWSU_CLEAN
  else if n = 2 then UMWSU_UNKNOWN_FILE_TYPE
  else if n = 3 then UMWSU_EINVAL
  else if n = 4 then UMWSU_SUSPICIOUS
  else if n = 5 then UMWSU_MALWARE
  else if n = 6 then UMWSU_WHITE_LISTED
  else UMWSU_UNDECIDED

/-- A library handle of a remote client whose configuration names the socket. -/
def umwsu_remote : umwsu :=
  { verbose := 0,
    is_remote := true,
    conf_get := fun _ _ => some "/var/run/umwsu.sock",
    get_applicable_modules := fun _ _ => (none, "") }

/-- A module that finds every file clean. -/
def module_clean (name : String) : umwsu_module :=
  { name := name, scan := fun _ _ => (UMWSU_CLEAN, none) }

/-- A library handle whose resolver answers every file with the given module array. -/
def umwsu_resolving (modules : Option (List umwsu_module)) : umwsu :=
  { verbose := 0,
    is_remote := false,
    conf_get := fun _ _ => none,
    get_applicable_modules := fun _ _ => (modules, "text/plain") }

/-- The content of a fresh memory block. -/
def fresh_block : umwsu_scan :=
  { umwsu := umwsu_resolving none, path := "", flags := { threaded := false, recurse := false },
    callbacks := [], is_remote := false, local_thread_pool := none,
    local_private_magic_key := none, remote_sock := 0, remote_handler := none }

/-- A new session with one caller-registered observer, callback 1 with context 7. -/
def session_one_observer (u : umwsu) (path : String) (flags : umwsu_scan_flags) : umwsu_scan :=
  umwsu_scan_add_callback (umwsu_scan_new fresh_block u path flags)
    (umwsu_scan_callback_t.user 1) (some 7)

/-- A header of libarmadito with `REPORT_PROGRESS_UNKNOWN` as -1 and the names of the
statuses as pretty strings. -/
def libarmadito_example : libarmadito :=
  { REPORT_PROGRESS_UNKNOWN := -1,
    a6o_file_status_pretty_str := fun s => if s = UMWSU_CLEAN then "clean" else "other",
    a6o_action_pretty_str := fun _ => "none" }

/-- A clean report of a scan in progress. -/
def report_in_progress (progress : Int) : a6o_report :=
  { path := some "/srv/a", status := UMWSU_CLEAN, action := 0, progress := progress,
    malware_count := 0, suspicious_count := 0, scanned_count := 10,
    mod_name := none, mod_report := none }

/-- A hash of sixteen bytes whose second byte is zero. -/
def hash_with_zero_byte : List Nat :=
  [58, 0, 17, 34, 51, 68, 85, 102, 119, 136, 153, 170, 187, 204, 221, 238]

/-- A hash that has the first two bytes of `hash_with_zero_byte` and differs from it in
every later byte. -/
def cached_hash_with_zero_byte : List Nat :=
  [58, 0, 1, 2, 3, 4, 5, 6, 7, 8, 9, 10, 11, 12, 13, 14]

/-- A package of the `clamav` module that was downloaded to the cache. -/
def package_clamav : Package :=
  { displayname := "main.cvd", fileurl := "http://db.example/main.cvd",
    controlsum := "00", controltype := "MD5", licence := "clamav",
    cachefilename := some "C:\\cache\\main.cvd" }

/-- A run of the update in which every step succeeds and the description differs from
the cached one. -/
def update_host_ok : update_host :=
  { GetModuleFileNameA := some "C:\\av\\service.exe",
    CopyFileA := fun _ _ => true,
    GetLocationCompletepath := some "C:\\av\\dbcache",
    GetFileContent_b := fun _ => (some cached_hash_with_zero_byte, 16),
    download_description := 0,
    download_signature := 0,
    verify_file_signature := 0,
    GetFileContent := (some "description", 11),
    GetFileHash := some [58, 1, 17, 34, 51, 68, 85, 102, 119, 136, 153, 170, 187, 204, 221, 238],
    ParseDescriptionFile := some [package_clamav],
    DownloadPackageFiles := 0,
    ServicePause := 0,
    ServiceUnloadProcedure := 0,
    ServiceContinue := 0,
    ServiceLoadProcedure := 0,
    SaveHashInCacheFile := 0 }

/-! ## Lemmas on the status order -/

theorem umwsu_status_cmp_neg_iff (a b : umwsu_status) :
    umwsu_status_cmp a b < 0 ↔ umwsu_status_priority a < umwsu_status_priority b := by
  unfold umwsu_status_cmp
  split_ifs with h1 h2
  · simp [h1]
  · simp [h2]
  · simp [h1]

theorem umwsu_status_cmp_nonneg_iff (a b : umwsu_status) :
    0 ≤ umwsu_status_cmp a b ↔ umwsu_status_priority b ≤ umwsu_status_priority a := by
  rw [← not_lt, umwsu_status_cmp_neg_iff, not_lt]

theorem umwsu_status_priority_injective (a b : umwsu_status)
    (h : umwsu_status_priority a = umwsu_status_priority b) : a = b := by
  cases a <;> cases b <;> simp [umwsu_status_priority] at h <;> rfl

theorem priority_lt_of_not_final (c s : umwsu_status) (hc : is_final_status c = false)
    (hs : is_final_status s = true) :
    umwsu_status_priority c < umwsu_status_priority s := by
  cases c <;> cases s <;> simp [is_final_status, umwsu_status_priority] at *

theorem is_final_status_iff (s : umwsu_status) :
    is_final_status s = true ↔ (s = UMWSU_WHITE_LISTED ∨ s = UMWSU_MALWARE) := by
  simp [is_final_status]

/-- One turn of the loop of `local_scan_apply_modules`, unfolded. -/
theorem local_scan_apply_modules_loop_cons (path mime_type : String) (mod : umwsu_module)
    (rest : List umwsu_module) (c : umwsu_status) (report : umwsu_report) :
    local_scan_apply_modules_loop path mime_type (mod :: rest) c report =
      if umwsu_status_cmp c (mod.scan path mime_type).1 < 0 then
        if is_final_status (mod.scan path mime_type).1 = true then
          ((mod.scan path mime_type).1,
           umwsu_report_change report (mod.scan path mime_type).1 mod.name
             (mod.scan path mime_type).2,
           [event.module_scan mod.name path mime_type])
        else
          ((local_scan_apply_modules_loop path mime_type rest (mod.scan path mime_type).1
              (umwsu_report_change report (mod.scan path mime_type).1 mod.name
                (mod.scan path mime_type).2)).1,
           (local_scan_apply_modules_loop path mime_type rest (mod.scan path mime_type).1
              (umwsu_report_change report (mod.scan path mime_type).1 mod.name
                (mod.scan path mime_type).2)).2.1,
           event.module_scan mod.name path mime_type ::
             (local_scan_apply_modules_loop path mime_type rest (mod.scan path mime_type).1
              (umwsu_report_change report (mod.scan path mime_type).1 mod.name
                (mod.scan path mime_type).2)).2.2)
      else
        if is_final_status c = true then
          (c, report, [event.module_scan mod.name path mime_type])
        else
          ((local_scan_apply_modules_loop path mime_type rest c report).1,
           (local_scan_apply_modules_loop path mime_type rest c report).2.1,
           event.module_scan mod.name path mime_type ::
             (local_scan_apply_modules_loop path mime_type rest c report).2.2) := by
  simp only [local_scan_apply_modules_loop, is_final_status_iff]
  split_ifs <;> simp_all

theorem take_through_eq_take {α : Type} (p : α → Bool) (l : List α) :
    take_through p l =
      l.take (if l.findIdx p < l.length then l.findIdx p + 1 else l.length) := by
  induction l with
  | nil => rfl
  | cons a l ih =>
    simp only [take_through, List.findIdx_cons, List.length_cons]
    by_cases h : p a = true
    · simp [h]
    · simp only [h, Bool.false_eq_true, if_false, cond_false, Nat.add_lt_add_iff_right]
      rw [ih]
      split_ifs <;> simp

/-- The invocations `local_scan_apply_modules` makes from a status that is not final
are those of the modules up to and including the first that returns a final status. -/
theorem local_scan_apply_modules_loop_events (path mime_type : String) :
    ∀ (mods : List umwsu_module) (c : umwsu_status) (report : umwsu_report),
      is_final_status c = false →
      (local_scan_apply_modules_loop path mime_type mods c report).2.2 =
        (invoked_modules path mime_type mods).map
          (fun m => event.module_scan m.name path mime_type) := by
  intro mods
  induction mods with
  | nil => intro c report _; rfl
  | cons mod rest ih =>
    intro c report hc
    rw [local_scan_apply_modules_loop_cons]
    simp only [invoked_modules, take_through]
    by_cases hs : is_final_status (mod.scan path mime_type).1 = true
    · have hlt := (umwsu_status_cmp_neg_iff c _).2 (priority_lt_of_not_final c _ hc hs)
      simp [hlt, hs]
    · have hs' : is_final_status (mod.scan path mime_type).1 = false := by simpa using hs
      by_cases hlt : umwsu_status_cmp c (mod.scan path mime_type).1 < 0
      · simp only [hlt, hs', if_true, Bool.false_eq_true, if_false, List.map_cons]
        rw [ih _ _ hs']; rfl
      · simp only [hlt, hc, hs', if_false, Bool.false_eq_true, List.map_cons]
        rw [ih _ _ hc]; rfl

/-- The status `local_scan_apply_modules` ends with, started from a status `c` that is
not final: it is `c` or a status of an invoked module, and no such status has
higher priority. -/
theorem local_scan_apply_modules_loop_status (path mime_type : String) :
    ∀ (mods : List umwsu_module) (c : umwsu_status) (report : umwsu_report),
      is_final_status c = false →
      (local_scan_apply_modules_loop path mime_type mods c report).1 ∈
          c :: take_through is_final_status (module_statuses path mime_type mods) ∧
      ∀ s ∈ c :: take_through is_final_status (module_statuses path mime_type mods),
        umwsu_status_priority s ≤
          umwsu_status_priority (local_scan_apply_modules_loop path mime_type mods c report).1 := by
  intro mods
  induction mods with
  | nil =>
    intro c report _
    simp [local_scan_apply_modules_loop, module_statuses, take_through]
  | cons mod rest ih =>
    intro c report hc
    rw [local_scan_apply_modules_loop_cons]
    simp only [module_statuses, List.map_cons, take_through]
    by_cases hs : is_final_status (mod.scan path mime_type).1 = true
    · have hp := priority_lt_of_not_final c _ hc hs
      have hlt := (umwsu_status_cmp_neg_iff c _).2 hp
      simp only [hlt, hs, if_true]
      refine ⟨by simp, ?_⟩
      intro s hmem
      simp only [List.mem_cons, List.mem_singleton, List.not_mem_nil, or_false] at hmem
      rcases hmem with h | h
      · rw [h]; exact Nat.le_of_lt hp
      · rw [h]
    · have hs' : is_final_status (mod.scan path mime_type).1 = false := by simpa using hs
      by_cases hlt : umwsu_status_cmp c (mod.scan path mime_type).1 < 0
      · have hp := (umwsu_status_cmp_neg_iff c _).1 hlt
        simp only [hlt, hs', if_true, Bool.false_eq_true, if_false]
        obtain ⟨h1, h2⟩ := ih (mod.scan path mime_type).1
          (umwsu_report_change report (mod.scan path mime_type).1 mod.name
            (mod.scan path mime_type).2) hs'
        refine ⟨List.mem_cons_of_mem _ h1, ?_⟩
        intro s hmem
        rcases List.mem_cons.1 hmem with h | h
        · rw [h]; exact le_trans (Nat.le_of_lt hp) (h2 _ (List.mem_cons_self _ _))
        · exact h2 _ h
      · have hp : umwsu_status_priority (mod.scan path mime_type).1 ≤ umwsu_status_priority c := by
          rw [umwsu_status_cmp_neg_iff] at hlt; omega
        simp only [hlt, hc, hs', if_false, Bool.false_eq_true]
        obtain ⟨h1, h2⟩ := ih c report hc
        constructor
        · rcases List.mem_cons.1 h1 with h | h
          · rw [h]; exact List.mem_cons_self _ _
          · exact List.mem_cons_of_mem _ (List.mem_cons_of_mem _ h)
        · intro s hmem
          rcases List.mem_cons.1 hmem with h | h
          · rw [h]; exact h2 _ (List.mem_cons_self _ _)
          · rcases List.mem_cons.1 h with h' | h'
            · rw [h']; exact le_trans hp (h2 _ (List.mem_cons_self _ _))
            · exact h2 _ (List.mem_cons_of_mem _ h')

/-- The current status of `local_scan_apply_modules` never loses priority. -/
theorem local_scan_apply_modules_loop_mono (path mime_type : String) :
    ∀ (mods : List umwsu_module) (c : umwsu_status) (report : umwsu_report),
      umwsu_status_priority c ≤
        umwsu_status_priority (local_scan_apply_modules_loop path mime_type mods c report).1 := by
  intro mods
  induction mods with
  | nil => intro c report; simp [local_scan_apply_modules_loop]
  | cons mod rest ih =>
    intro c report
    rw [local_scan_apply_modules_loop_cons]
    by_cases hlt : umwsu_status_cmp c (mod.scan path mime_type).1 < 0
    · have hp := (umwsu_status_cmp_neg_iff c _).1 hlt
      simp only [hlt, if_true]
      split_ifs
      · exact Nat.le_of_lt hp
      · exact le_trans (Nat.le_of_lt hp) (ih _ _)
    · simp only [hlt, if_false]
      split_ifs
      · exact le_refl _
      · exact ih _ _

theorem umwsu_report_change_change (report : umwsu_report) (s1 s2 : umwsu_status)
    (n1 n2 : String) (d1 d2 : Option String) :
    umwsu_report_change (umwsu_report_change report s1 n1 d1) s2 n2 d2 =
      umwsu_report_change report s2 n2 d2 := rfl

/-- The report `local_scan_apply_modules` leaves: untouched when the status did not
move, and otherwise the verdict of the first invoked module that returned the final
status. -/
theorem local_scan_apply_modules_loop_report (path mime_type : String) :
    ∀ (mods : List umwsu_module) (c : umwsu_status) (report : umwsu_report),
      ((local_scan_apply_modules_loop path mime_type mods c report).1 = c →
        (local_scan_apply_modules_loop path mime_type mods c report).2.1 = report) ∧
      ((local_scan_apply_modules_loop path mime_type mods c report).1 ≠ c →
        ∃ m, (invoked_modules path mime_type mods).find?
              (fun m => decide ((m.scan path mime_type).1 =
                (local_scan_apply_modules_loop path mime_type mods c report).1)) = some m ∧
          (local_scan_apply_modules_loop path mime_type mods c report).2.1 =
            umwsu_report_change report
              (local_scan_apply_modules_loop path mime_type mods c report).1 m.name
              (m.scan path mime_type).2) := by
  intro mods
  induction mods with
  | nil => intro c report; simp [local_scan_apply_modules_loop]
  | cons mod rest ih =>
    intro c report
    rw [local_scan_apply_modules_loop_cons]
    simp only [invoked_modules, take_through]
    by_cases hlt : umwsu_status_cmp c (mod.scan path mime_type).1 < 0
    · have hp := (umwsu_status_cmp_neg_iff c _).1 hlt
      have hne : (mod.scan path mime_type).1 ≠ c := by
        intro h; rw [h] at hp; exact Nat.lt_irrefl _ hp
      simp only [hlt, if_true]
      by_cases hs : is_final_status (mod.scan path mime_type).1 = true
      · simp only [hs, if_true]
        refine ⟨fun h => absurd h hne, fun _ => ⟨mod, ?_, rfl⟩⟩
        simp [List.find?]
      · have hs' : is_final_status (mod.scan path mime_type).1 = false := by simpa using hs
        simp only [hs', if_false, Bool.false_eq_true]
        have hmono := local_scan_apply_modules_loop_mono path mime_type rest
          (mod.scan path mime_type).1
          (umwsu_report_change report (mod.scan path mime_type).1 mod.name
            (mod.scan path mime_type).2)
        obtain ⟨h1, h2⟩ := ih (mod.scan path mime_type).1
          (umwsu_report_change report (mod.scan path mime_type).1 mod.name
            (mod.scan path mime_type).2)
        constructor
        · intro h
          rw [h] at hmono
          omega
        · intro _
          by_cases heq : (local_scan_apply_modules_loop path mime_type rest
              (mod.scan path mime_type).1
              (umwsu_report_change report (mod.scan path mime_type).1 mod.name
                (mod.scan path mime_type).2)).1 = (mod.scan path mime_type).1
          · refine ⟨mod, ?_, ?_⟩
            · simp [List.find?, heq]
            · rw [h1 heq, heq]
          · obtain ⟨m, hm1, hm2⟩ := h2 heq
            refine ⟨m, ?_, ?_⟩
            · rw [List.find?_cons_of_neg]
              · exact hm1
              · simpa using fun h => heq h.symm
            · rw [hm2, umwsu_report_change_change]
    · have hp : umwsu_status_priority (mod.scan path mime_type).1 ≤ umwsu_status_priority c := by
        rw [umwsu_status_cmp_neg_iff] at hlt; omega
      simp only [hlt, if_false]
      by_cases hc : is_final_status c = true
      · simp [hc]
      · have hc' : is_final_status c = false := by simpa using hc
        have hs : is_final_status (mod.scan path mime_type).1 = false := by
          by_contra hs
          have := priority_lt_of_not_final c _ hc' (by simpa using hs)
          omega
        simp only [hc', hs, if_false, Bool.false_eq_true]
        have hmono := local_scan_apply_modules_loop_mono path mime_type rest c report
        obtain ⟨h1, h2⟩ := ih c report
        refine ⟨h1, fun hne => ?_⟩
        obtain ⟨m, hm1, hm2⟩ := h2 hne
        refine ⟨m, ?_, hm2⟩
        rw [List.find?_cons_of_neg]
        · exact hm1
        · simp only [decide_eq_true_eq]
          intro h
          apply hne
          apply (umwsu_status_priority_injective _ _ _).symm
          rw [h] at hp
          omega

theorem take_through_ne_nil {α : Type} (p : α → Bool) (l : List α) (h : l ≠ []) :
    take_through p l ≠ [] := by
  cases l with
  | nil => exact absurd rfl h
  | cons a l =>
    simp only [take_through]
    split_ifs <;> simp

/-! ## The module verdict aggregator -/

/-- C1: for every module list and every choice of returned statuses,
`local_scan_apply_modules` returns the maximum-priority status among the statuses
returned by the modules up to and including the first one that returns `WHITE_LISTED`
or `MALWARE` (all of them when none does): the result is one of these statuses and
`umwsu_status_cmp` ranks none of them above it. For an empty list the result is
`UNDECIDED`. -/
theorem local_scan_apply_modules_returns_max_priority (path mime_type : String)
    (mod_array : List umwsu_module) (report : umwsu_report) :
    (local_scan_apply_modules path mime_type [] report).1 = UMWSU_UNDECIDED ∧
    (mod_array ≠ [] →
      (local_scan_apply_modules path mime_type mod_array report).1 ∈
        take_through is_final_status (module_statuses path mime_type mod_array)) ∧
    (∀ s ∈ take_through is_final_status (module_statuses path mime_type mod_array),
      0 ≤ umwsu_status_cmp (local_scan_apply_modules path mime_type mod_array report).1 s) := by
  obtain ⟨h1, h2⟩ := local_scan_apply_modules_loop_status path mime_type mod_array
    UMWSU_UNDECIDED report rfl
  refine ⟨rfl, ?_, ?_⟩
  · intro hne
    rcases List.mem_cons.1 h1 with h | h
    · have hnil : take_through is_final_status (module_statuses path mime_type mod_array) ≠ [] :=
        take_through_ne_nil _ _ (by simpa [module_statuses] using hne)
      obtain ⟨s, hs⟩ := List.exists_mem_of_ne_nil _ hnil
      have hle := h2 s (List.mem_cons_of_mem _ hs)
      unfold local_scan_apply_modules
      rw [h] at hle ⊢
      have : s = UMWSU_UNDECIDED := by
        apply umwsu_status_priority_injective
        simp only [umwsu_status_priority] at hle ⊢
        omega
      rw [← this]
      exact hs
    · exact h
  · intro s hs
    rw [umwsu_status_cmp_nonneg_iff]
    exact h2 s (List.mem_cons_of_mem _ hs)

/-- C2: `local_scan_apply_modules` invokes the modules of its list in order, up to and
including the first one that returns `WHITE_LISTED` or `MALWARE`, and none after it:
with `i` the index of that module, the invocations are those of the first `i + 1`
modules, and of all modules when no module returns either status. -/
theorem local_scan_apply_modules_stops_at_first_final (path mime_type : String)
    (mod_array : List umwsu_module) (report : umwsu_report) :
    (local_scan_apply_modules path mime_type mod_array report).2.2 =
      (mod_array.take
        (if mod_array.findIdx (fun m => is_final_status (m.scan path mime_type).1)
              < mod_array.length
         then mod_array.findIdx (fun m => is_final_status (m.scan path mime_type).1) + 1
         else mod_array.length)).map
        (fun m => event.module_scan m.name path mime_type) ∧
    (local_scan_apply_modules path mime_type mod_array report).2.2.length =
      (if mod_array.findIdx (fun m => is_final_status (m.scan path mime_type).1)
            < mod_array.length
       then mod_array.findIdx (fun m => is_final_status (m.scan path mime_type).1) + 1
       else mod_array.length) := by
  have hev := local_scan_apply_modules_loop_events path mime_type mod_array
    UMWSU_UNDECIDED report rfl
  unfold invoked_modules at hev
  rw [take_through_eq_take] at hev
  unfold local_scan_apply_modules
  refine ⟨hev, ?_⟩
  rw [hev, List.length_map, List.length_take]
  split_ifs with h
  · omega
  · simp

/-- C3: the verdict `local_scan_apply_modules` records in the report is that of the
first invoked module, in list order, whose returned status equals the final status, so
of two modules returning the same status the earlier one is the deciding module. When
the final status is `UNDECIDED` no verdict is recorded and the report is untouched. -/
theorem local_scan_apply_modules_attributes_first (path mime_type : String)
    (mod_array : List umwsu_module) (report : umwsu_report) :
    ((local_scan_apply_modules path mime_type mod_array report).1 = UMWSU_UNDECIDED →
      (local_scan_apply_modules path mime_type mod_array report).2.1 = report) ∧
    ((local_scan_apply_modules path mime_type mod_array report).1 ≠ UMWSU_UNDECIDED →
      ∃ m, (invoked_modules path mime_type mod_array).find?
            (fun m => decide ((m.scan path mime_type).1 =
              (local_scan_apply_modules path mime_type mod_array report).1)) = some m ∧
        (local_scan_apply_modules path mime_type mod_array report).2.1 =
          umwsu_report_change report
            (local_scan_apply_modules path mime_type mod_array report).1 m.name
            (m.scan path mime_type).2) :=
  local_scan_apply_modules_loop_report path mime_type mod_array UMWSU_UNDECIDED report

/-! ## Observers -/

theorem umwsu_scan_call_callbacks_loop_eq_map (report : umwsu_report)
    (entries : List callback_entry) :
    umwsu_scan_call_callbacks_loop report entries =
      entries.map (fun e => event.callback e.callback report e.callback_data) := by
  induction entries with
  | nil => rfl
  | cons e rest ih => simp [umwsu_scan_call_callbacks_loop, ih]

theorem callbacks_foldl_add (observers : List (umwsu_scan_callback_t × Option Nat)) :
    ∀ scan : umwsu_scan,
      (observers.foldl (fun s o => umwsu_scan_add_callback s o.1 o.2) scan).callbacks =
        scan.callbacks ++
          observers.map (fun o => { callback := o.1, callback_data := o.2 : callback_entry }) := by
  induction observers with
  | nil => intro scan; simp
  | cons o rest ih =>
    intro scan
    simp only [List.foldl_cons, List.map_cons]
    rw [ih]
    simp [umwsu_scan_add_callback]

theorem filter_callback_call_callbacks (scan : umwsu_scan) (report : umwsu_report) :
    (umwsu_scan_call_callbacks scan report).filter is_callback_event =
      umwsu_scan_call_callbacks scan report := by
  unfold umwsu_scan_call_callbacks
  rw [umwsu_scan_call_callbacks_loop_eq_map]
  induction scan.callbacks with
  | nil => rfl
  | cons e rest ih => simp [is_callback_event, ih]

theorem filter_module_scan_call_callbacks (scan : umwsu_scan) (report : umwsu_report) :
    (umwsu_scan_call_callbacks scan report).filter is_module_scan_event = [] := by
  unfold umwsu_scan_call_callbacks
  rw [umwsu_scan_call_callbacks_loop_eq_map]
  induction scan.callbacks with
  | nil => rfl
  | cons e rest ih => simp [is_module_scan_event, ih]

theorem local_scan_apply_modules_loop_only_scans (path mime_type : String) :
    ∀ (mods : List umwsu_module) (c : umwsu_status) (report : umwsu_report),
      (local_scan_apply_modules_loop path mime_type mods c report).2.2.filter
          is_callback_event = [] ∧
      (local_scan_apply_modules_loop path mime_type mods c report).2.2.filter
          is_module_scan_event =
        (local_scan_apply_modules_loop path mime_type mods c report).2.2 := by
  intro mods
  induction mods with
  | nil => intro c report; simp [local_scan_apply_modules_loop]
  | cons mod rest ih =>
    intro c report
    rw [local_scan_apply_modules_loop_cons]
    split_ifs <;> simp [is_callback_event, is_module_scan_event, ih]

theorem local_scan_apply_modules_loop_report_status (path mime_type : String)
    (mods : List umwsu_module) (c : umwsu_status) (report : umwsu_report)
    (h : report.status = c) :
    (local_scan_apply_modules_loop path mime_type mods c report).2.1.status =
      (local_scan_apply_modules_loop path mime_type mods c report).1 := by
  obtain ⟨h1, h2⟩ := local_scan_apply_modules_loop_report path mime_type mods c report
  by_cases heq : (local_scan_apply_modules_loop path mime_type mods c report).1 = c
  · rw [h1 heq, heq, h]
  · obtain ⟨m, _, hm⟩ := h2 heq
    rw [hm]
    rfl

theorem local_scan_apply_modules_loop_report_path (path mime_type : String) :
    ∀ (mods : List umwsu_module) (c : umwsu_status) (report : umwsu_report),
      (local_scan_apply_modules_loop path mime_type mods c report).2.1.path = report.path ∧
      (local_scan_apply_modules_loop path mime_type mods c report).2.1.action = report.action := by
  intro mods c report
  obtain ⟨h1, h2⟩ := local_scan_apply_modules_loop_report path mime_type mods c report
  by_cases heq : (local_scan_apply_modules_loop path mime_type mods c report).1 = c
  · rw [h1 heq]; exact ⟨rfl, rfl⟩
  · obtain ⟨m, _, hm⟩ := h2 heq
    rw [hm]
    exact ⟨rfl, rfl⟩

/-- The trace of `local_scan_file` when the resolver returns no module array. -/
theorem local_scan_file_none (h : host) (scan : umwsu_scan) (magic : Option Nat)
    (path : String)
    (hres : (scan.umwsu.get_applicable_modules magic path).1 = none) :
    local_scan_file h scan magic path =
      (h.uninit_status,
       (if scan.umwsu.verbose ≥ 3 then [event.print path h.uninit_status] else []) ++
         umwsu_scan_call_callbacks scan
           { umwsu_report_init (some path) with status := UMWSU_UNKNOWN_FILE_TYPE }) := by
  unfold local_scan_file
  simp only [hres, List.nil_append]

/-- The trace of `local_scan_file` when the resolver returns a module array. -/
theorem local_scan_file_some (h : host) (scan : umwsu_scan) (magic : Option Nat)
    (path : String) (mods : List umwsu_module)
    (hres : (scan.umwsu.get_applicable_modules magic path).1 = some mods) :
    local_scan_file h scan magic path =
      ((local_scan_apply_modules path (scan.umwsu.get_applicable_modules magic path).2 mods
          (umwsu_report_init (some path))).1,
       (local_scan_apply_modules path (scan.umwsu.get_applicable_modules magic path).2 mods
          (umwsu_report_init (some path))).2.2 ++
         (if scan.umwsu.verbose ≥ 3 then
            [event.print path
              (local_scan_apply_modules path (scan.umwsu.get_applicable_modules magic path).2
                mods (umwsu_report_init (some path))).1]
          else []) ++
         umwsu_scan_call_callbacks scan
           (local_scan_apply_modules path (scan.umwsu.get_applicable_modules magic path).2 mods
              (umwsu_report_init (some path))).2.1) := by
  unfold local_scan_file
  simp only [hres]

theorem filter_callback_printed (c : Prop) [Decidable c] (path : String) (s : umwsu_status) :
    (if c then [event.print path s] else []).filter is_callback_event = [] ∧
    (if c then [event.print path s] else []).filter is_module_scan_event = [] := by
  split_ifs <;> simp [is_callback_event, is_module_scan_event]

/-! ## One report per file -/

/-- C4, counterexample: for a file whose resolved module array has length 0 the one
report `local_scan_file` delivers has status `UNDECIDED`, not `UNKNOWN_FILE_TYPE`. -/
theorem local_scan_file_empty_array_is_undecided :
    delivered_reports (umwsu_scan_callback_t.user 1) (some 7)
        (local_scan_file host_regular_file
          (session_one_observer (umwsu_resolving (some [])) "/srv/a"
            { threaded := false, recurse := false }) none "/srv/a").2 =
      [{ path := some "/srv/a", status := UMWSU_UNDECIDED, action := UMWSU_ACTION_NONE,
         mod_name := none, mod_report := none }] ∧
    ¬ (∀ r ∈ delivered_reports (umwsu_scan_callback_t.user 1) (some 7)
        (local_scan_file host_regular_file
          (session_one_observer (umwsu_resolving (some [])) "/srv/a"
            { threaded := false, recurse := false }) none "/srv/a").2,
        r.status = UMWSU_UNKNOWN_FILE_TYPE) := by
  decide

/-- C4, amended: when the module resolver returns no module array (`NULL`),
`local_scan_file` makes exactly one call of `umwsu_scan_call_callbacks`, with a report
for the file whose status is `UNKNOWN_FILE_TYPE` and which names no module, and
invokes no module. When the resolver returns an array of length 0 it likewise makes
one call with a report that names no module and invokes no module, and the status of
that report is `UNDECIDED`. -/
theorem local_scan_file_without_modules (h : host) (scan : umwsu_scan)
    (magic : Option Nat) (path : String) :
    ((scan.umwsu.get_applicable_modules magic path).1 = none →
      (local_scan_file h scan magic path).2.filter is_callback_event =
        umwsu_scan_call_callbacks scan
          { path := some path, status := UMWSU_UNKNOWN_FILE_TYPE,
            action := UMWSU_ACTION_NONE, mod_name := none, mod_report := none } ∧
      (local_scan_file h scan magic path).2.filter is_module_scan_event = []) ∧
    ((scan.umwsu.get_applicable_modules magic path).1 = some [] →
      (local_scan_file h scan magic path).2.filter is_callback_event =
        umwsu_scan_call_callbacks scan
          { path := some path, status := UMWSU_UNDECIDED,
            action := UMWSU_ACTION_NONE, mod_name := none, mod_report := none } ∧
      (local_scan_file h scan magic path).2.filter is_module_scan_event = []) := by
  constructor
  · intro hres
    rw [local_scan_file_none h scan magic path hres]
    constructor
    · rw [List.filter_append, filter_callback_call_callbacks,
        (filter_callback_printed _ _ _).1]
      rfl
    · rw [List.filter_append, filter_module_scan_call_callbacks,
        (filter_callback_printed _ _ _).2]
      rfl
  · intro hres
    rw [local_scan_file_some h scan magic path [] hres]
    have happly : ∀ mime_type : String,
        local_scan_apply_modules path mime_type [] (umwsu_report_init (some path)) =
          (UMWSU_UNDECIDED, umwsu_report_init (some path), []) := fun _ => rfl
    rw [happly]
    constructor
    · rw [List.filter_append, List.filter_append, filter_callback_call_callbacks,
        (filter_callback_printed _ _ _).1]
      rfl
    · rw [List.filter_append, List.filter_append, filter_module_scan_call_callbacks,
        (filter_callback_printed _ _ _).2]
      rfl

/-- C4, amended, at concrete sessions: one with a resolver that returns no array and
one with a resolver that returns an empty array. -/
theorem local_scan_file_without_modules_witness :
    ((local_scan_file host_regular_file
        (session_one_observer (umwsu_resolving none) "/srv/a"
          { threaded := false, recurse := false }) none "/srv/a").2.filter is_callback_event =
      [event.callback (umwsu_scan_callback_t.user 1)
        { path := some "/srv/a", status := UMWSU_UNKNOWN_FILE_TYPE,
          action := UMWSU_ACTION_NONE, mod_name := none, mod_report := none } (some 7)]) ∧
    ((local_scan_file host_regular_file
        (session_one_observer (umwsu_resolving (some [])) "/srv/a"
          { threaded := false, recurse := false }) none "/srv/a").2.filter is_callback_event =
      [event.callback (umwsu_scan_callback_t.user 1)
        { path := some "/srv/a", status := UMWSU_UNDECIDED,
          action := UMWSU_ACTION_NONE, mod_name := none, mod_report := none } (some 7)]) :=
  ⟨((local_scan_file_without_modules host_regular_file
        (session_one_observer (umwsu_resolving none) "/srv/a"
          { threaded := false, recurse := false }) none "/srv/a").1 rfl).1,
   ((local_scan_file_without_modules host_regular_file
        (session_one_observer (umwsu_resolving (some [])) "/srv/a"
          { threaded := false, recurse := false }) none "/srv/a").2 rfl).1⟩

/-- C5, the code at the failing input: on a regular file for which the resolver
returns no module array, `umwsu_scan_start` returns the value the never-assigned local
`status` of `local_scan_file` happens to hold, here `CLEAN`, while the one report
delivered for the file has status `UNKNOWN_FILE_TYPE`. -/
theorem umwsu_scan_start_returns_unassigned_status :
    (umwsu_scan_start host_regular_file
        (session_one_observer (umwsu_resolving none) "/srv/a"
          { threaded := false, recurse := false })).map
      (fun r => (r.1, delivered_reports (umwsu_scan_callback_t.user 1) (some 7) r.2.2)) =
    some (UMWSU_CLEAN,
      [{ path := some "/srv/a", status := UMWSU_UNKNOWN_FILE_TYPE,
         action := UMWSU_ACTION_NONE, mod_name := none, mod_report := none }]) := by
  decide

/-- The shape of the trace of `local_scan_file`. -/
theorem local_scan_file_trace (h : host) (scan : umwsu_scan)
    (magic : Option Nat) (path : String) :
    ∃ (before : List event) (report : umwsu_report),
      (local_scan_file h scan magic path).2 =
        before ++ umwsu_scan_call_callbacks scan report ∧
      before.filter is_callback_event = [] ∧
      before.filter is_module_scan_event =
        (local_scan_file h scan magic path).2.filter is_module_scan_event ∧
      report.path = some path ∧
      ((scan.umwsu.get_applicable_modules magic path).1 = none →
        report.status = UMWSU_UNKNOWN_FILE_TYPE ∧
        before.filter is_module_scan_event = []) ∧
      (∀ mods, (scan.umwsu.get_applicable_modules magic path).1 = some mods →
        report =
          (local_scan_apply_modules path (scan.umwsu.get_applicable_modules magic path).2
            mods (umwsu_report_init (some path))).2.1 ∧
        report.status =
          (local_scan_apply_modules path (scan.umwsu.get_applicable_modules magic path).2
            mods (umwsu_report_init (some path))).1 ∧
        before.filter is_module_scan_event =
          (local_scan_apply_modules path (scan.umwsu.get_applicable_modules magic path).2
            mods (umwsu_report_init (some path))).2.2) := by
  cases hres : (scan.umwsu.get_applicable_modules magic path).1 with
  | none =>
    refine ⟨if scan.umwsu.verbose ≥ 3 then [event.print path h.uninit_status] else [],
      { umwsu_report_init (some path) with status := UMWSU_UNKNOWN_FILE_TYPE }, ?_⟩
    rw [local_scan_file_none h scan magic path hres]
    refine ⟨rfl, (filter_callback_printed _ _ _).1, ?_, rfl, ?_, ?_⟩
    · simp only [List.filter_append, filter_module_scan_call_callbacks, List.append_nil]
    · intro _
      exact ⟨rfl, (filter_callback_printed _ _ _).2⟩
    · intro mods hm
      exact absurd hm (by simp)
  | some mods =>
    refine ⟨(local_scan_apply_modules path (scan.umwsu.get_applicable_modules magic path).2
          mods (umwsu_report_init (some path))).2.2 ++
        (if scan.umwsu.verbose ≥ 3 then
          [event.print path
            (local_scan_apply_modules path (scan.umwsu.get_applicable_modules magic path).2
              mods (umwsu_report_init (some path))).1]
         else []),
      (local_scan_apply_modules path (scan.umwsu.get_applicable_modules magic path).2 mods
          (umwsu_report_init (some path))).2.1, ?_⟩
    rw [local_scan_file_some h scan magic path mods hres]
    have honly := local_scan_apply_modules_loop_only_scans path
      (scan.umwsu.get_applicable_modules magic path).2 mods UMWSU_UNDECIDED
      (umwsu_report_init (some path))
    have hstat := local_scan_apply_modules_loop_report_status path
      (scan.umwsu.get_applicable_modules magic path).2 mods UMWSU_UNDECIDED
      (umwsu_report_init (some path)) rfl
    have hpath := (local_scan_apply_modules_loop_report_path path
      (scan.umwsu.get_applicable_modules magic path).2 mods UMWSU_UNDECIDED
      (umwsu_report_init (some path))).1
    have hflt : ∀ s : umwsu_status,
        ((local_scan_apply_modules path (scan.umwsu.get_applicable_modules magic path).2
          mods (umwsu_report_init (some path))).2.2 ++
        (if scan.umwsu.verbose ≥ 3 then [event.print path s] else [])).filter
          is_module_scan_event =
        (local_scan_apply_modules path (scan.umwsu.get_applicable_modules magic path).2
          mods (umwsu_report_init (some path))).2.2 := by
      intro s
      rw [List.filter_append, (filter_callback_printed _ _ _).2, List.append_nil]
      exact honly.2
    refine ⟨rfl, ?_, ?_, hpath, ?_, ?_⟩
    · rw [List.filter_append, (filter_callback_printed _ _ _).1, List.append_nil]
      exact honly.1
    · rw [List.filter_append _ (umwsu_scan_call_callbacks _ _),
        filter_module_scan_call_callbacks, List.append_nil]
    · intro hn
      exact absurd hn (by simp)
    · intro mods2 hm
      have : mods = mods2 := by simpa using hm
      subst this
      exact ⟨rfl, hstat, hflt _⟩

/-- C6: whatever the resolver and the modules return, the trace of `local_scan_file`
is a part without any delivery, holding every module invocation made for the file,
followed by the deliveries of exactly one call of `umwsu_scan_call_callbacks`. The
report of that call is the report for the file with its final verdict: status
`UNKNOWN_FILE_TYPE` when there is no module array, and otherwise the report as
`local_scan_apply_modules` left it, whose status is the status that function
returned. -/
theorem local_scan_file_delivers_one_final_report (h : host) (scan : umwsu_scan)
    (magic : Option Nat) (path : String) :
    ∃ (before : List event) (report : umwsu_report),
      (local_scan_file h scan magic path).2 =
        before ++ umwsu_scan_call_callbacks scan report ∧
      before.filter is_callback_event = [] ∧
      before.filter is_module_scan_event =
        (local_scan_file h scan magic path).2.filter is_module_scan_event ∧
      report.path = some path ∧
      ((scan.umwsu.get_applicable_modules magic path).1 = none →
        report.status = UMWSU_UNKNOWN_FILE_TYPE ∧
        before.filter is_module_scan_event = []) ∧
      (∀ mods, (scan.umwsu.get_applicable_modules magic path).1 = some mods →
        report =
          (local_scan_apply_modules path (scan.umwsu.get_applicable_modules magic path).2
            mods (umwsu_report_init (some path))).2.1 ∧
        report.status =
          (local_scan_apply_modules path (scan.umwsu.get_applicable_modules magic path).2
            mods (umwsu_report_init (some path))).1 ∧
        before.filter is_module_scan_event =
          (local_scan_apply_modules path (scan.umwsu.get_applicable_modules magic path).2
            mods (umwsu_report_init (some path))).2.2) :=
  local_scan_file_trace h scan magic path

/-- C7: registering a sequence of observers with `umwsu_scan_add_callback` appends
them, in order, after the entries already present, which stay as they are; one call
of `umwsu_scan_call_callbacks` then invokes every registered pair once, in
registration order, each with the given report and its own context. On a new session
the calls are exactly those of the registered observers. -/
theorem umwsu_scan_call_callbacks_in_registration_order (scan : umwsu_scan)
    (observers : List (umwsu_scan_callback_t × Option Nat)) (report : umwsu_report)
    (block : umwsu_scan) (u : umwsu) (path : String) (flags : umwsu_scan_flags) :
    (observers.foldl (fun s o => umwsu_scan_add_callback s o.1 o.2) scan).callbacks =
      scan.callbacks ++
        observers.map (fun o => { callback := o.1, callback_data := o.2 : callback_entry }) ∧
    umwsu_scan_call_callbacks
        (observers.foldl (fun s o => umwsu_scan_add_callback s o.1 o.2) scan) report =
      umwsu_scan_call_callbacks scan report ++
        observers.map (fun o => event.callback o.1 report o.2) ∧
    umwsu_scan_call_callbacks
        (observers.foldl (fun s o => umwsu_scan_add_callback s o.1 o.2)
          (umwsu_scan_new block u path flags)) report =
      observers.map (fun o => event.callback o.1 report o.2) := by
  refine ⟨callbacks_foldl_add observers scan, ?_, ?_⟩
  · unfold umwsu_scan_call_callbacks
    rw [callbacks_foldl_add, umwsu_scan_call_callbacks_loop_eq_map,
      umwsu_scan_call_callbacks_loop_eq_map]
    simp [List.map_append, Function.comp_def]
  · unfold umwsu_scan_call_callbacks
    rw [callbacks_foldl_add, umwsu_scan_call_callbacks_loop_eq_map]
    simp [umwsu_scan_new, Function.comp_def]

/-- C9: for an entry the walker reports as a directory neither per-entry callback
does anything: `local_scan_entry_non_threaded` makes no call, so no `local_scan_file`
runs and no report is delivered, and `local_scan_entry_threaded` leaves the session,
and with it the queue of the pool, as it was. -/
theorem directory_entries_produce_nothing (h : host) (full_path : String)
    (scan : umwsu_scan) :
    local_scan_entry_non_threaded h full_path DT_DIR scan = (scan, []) ∧
    local_scan_entry_threaded h full_path DT_DIR scan = (scan, []) := by
  constructor
  · simp [local_scan_entry_non_threaded]
  · simp [local_scan_entry_threaded]

/-! ## Directory targets -/

theorem delivered_reports_append (cb : umwsu_scan_callback_t) (data : Option Nat)
    (a b : List event) :
    delivered_reports cb data (a ++ b) =
      delivered_reports cb data a ++ delivered_reports cb data b := by
  simp [delivered_reports, List.filterMap_append]

theorem delivered_reports_of_no_callback (cb : umwsu_scan_callback_t) (data : Option Nat)
    (trace : List event) (h : trace.filter is_callback_event = []) :
    delivered_reports cb data trace = [] := by
  induction trace with
  | nil => rfl
  | cons e rest ih =>
    cases e <;>
      simp_all [delivered_reports, delivered_report, is_callback_event, List.filter_cons]

theorem delivered_reports_call_callbacks (cb : umwsu_scan_callback_t) (data : Option Nat)
    (scan : umwsu_scan) (report : umwsu_report) :
    delivered_reports cb data (umwsu_scan_call_callbacks scan report) =
      List.replicate
        (scan.callbacks.count { callback := cb, callback_data := data }) report := by
  unfold umwsu_scan_call_callbacks
  induction scan.callbacks with
  | nil => rfl
  | cons e rest ih =>
    obtain ⟨c, d⟩ := e
    simp only [umwsu_scan_call_callbacks_loop, delivered_reports, List.filterMap_cons,
      delivered_report, List.count_cons] at ih ⊢
    by_cases hc : c = cb ∧ d = data
    · obtain ⟨h1, h2⟩ := hc
      subst h1 h2
      simp [ih, List.replicate_succ']
      exact (List.replicate_succ' _ _).symm ▸ rfl
    · have hne : ({ callback := c, callback_data := d } : callback_entry) ≠
          { callback := cb, callback_data := data } := by
        intro h
        injection h with h1 h2
        exact hc ⟨h1, h2⟩
      simp [hc, ih, hne]

/-- The reports `local_scan_file` delivers to an observer: one report for the file per
registration of the observer. -/
theorem delivered_reports_local_scan_file (h : host) (scan : umwsu_scan)
    (magic : Option Nat) (path : String) (cb : umwsu_scan_callback_t) (data : Option Nat) :
    (delivered_reports cb data (local_scan_file h scan magic path).2).map (fun r => r.path) =
      List.replicate (scan.callbacks.count { callback := cb, callback_data := data })
        (some path) := by
  obtain ⟨before, report, htrace, hbefore, _, hpath, _⟩ :=
    local_scan_file_trace h scan magic path
  rw [htrace, delivered_reports_append, delivered_reports_of_no_callback _ _ _ hbefore,
    delivered_reports_call_callbacks, List.nil_append, List.map_replicate, hpath]

theorem S_ISREG_of_S_ISDIR (st_mode : Nat) (h : S_ISDIR st_mode = true) :
    S_ISREG st_mode = false := by
  unfold S_ISDIR at h
  unfold S_ISREG
  have h' : st_mode &&& S_IFMT = 0o040000 := by simpa using h
  rw [h']
  decide

theorem non_directory_entries_cons_dir (e : String × Nat) (rest : List (String × Nat))
    (hd : e.2 = DT_DIR) :
    non_directory_entries (e :: rest) = non_directory_entries rest := by
  simp [non_directory_entries, hd]

theorem non_directory_entries_cons_file (e : String × Nat) (rest : List (String × Nat))
    (hd : ¬ e.2 = DT_DIR) :
    non_directory_entries (e :: rest) = e :: non_directory_entries rest := by
  simp [non_directory_entries, hd]

/-- The walk of `dir_map` with the synchronous callback: the session is left as it
was and the trace is that of `local_scan_file` on every entry that is not a
directory, in walk order. -/
theorem dir_map_loop_non_threaded (h : host) (scan : umwsu_scan) :
    ∀ entries : List (String × Nat),
      dir_map_loop (local_scan_entry_non_threaded h) entries scan =
        (scan, (non_directory_entries entries).flatMap
          (fun e => (local_scan_file h scan none e.1).2)) := by
  intro entries
  induction entries with
  | nil => rfl
  | cons e rest ih =>
    by_cases hd : e.2 = DT_DIR
    · rw [non_directory_entries_cons_dir e rest hd]
      have hcb : local_scan_entry_non_threaded h e.1 e.2 scan = (scan, []) := by
        simp [local_scan_entry_non_threaded, hd]
      simp only [dir_map_loop, hcb, ih, List.nil_append]
    · rw [non_directory_entries_cons_file e rest hd]
      have hcb : local_scan_entry_non_threaded h e.1 e.2 scan =
          (scan, (local_scan_file h scan none e.1).2) := by
        simp [local_scan_entry_non_threaded, hd]
      simp only [dir_map_loop, hcb, ih, List.flatMap_cons]

/-- The walk of `dir_map` with the queueing callback: no call is made, the observers
stay as they are and the path of every entry that is not a directory joins the queue
once, in walk order. -/
theorem dir_map_loop_threaded (h : host) :
    ∀ (entries : List (String × Nat)) (scan : umwsu_scan) (pool : GThreadPool),
      scan.local_thread_pool = some pool →
      (dir_map_loop (local_scan_entry_threaded h) entries scan).2 = [] ∧
      (dir_map_loop (local_scan_entry_threaded h) entries scan).1.callbacks =
        scan.callbacks ∧
      (dir_map_loop (local_scan_entry_threaded h) entries scan).1.local_thread_pool =
        some { pool with
          queue := pool.queue ++ (non_directory_entries entries).map (fun e => e.1) } := by
  intro entries
  induction entries with
  | nil => intro scan pool hp; simp [dir_map_loop, non_directory_entries, hp]
  | cons e rest ih =>
    intro scan pool hp
    by_cases hd : e.2 = DT_DIR
    · rw [non_directory_entries_cons_dir e rest hd]
      have hcb : local_scan_entry_threaded h e.1 e.2 scan = (scan, []) := by
        simp [local_scan_entry_threaded, hd]
      simp only [dir_map_loop, hcb, List.nil_append]
      exact ih scan pool hp
    · rw [non_directory_entries_cons_file e rest hd]
      have hcb : local_scan_entry_threaded h e.1 e.2 scan =
          ({ scan with local_thread_pool := g_thread_pool_push scan.local_thread_pool e.1 },
           []) := by
        simp [local_scan_entry_threaded, hd]
      obtain ⟨h1, h2, h3⟩ := ih
        { scan with local_thread_pool := g_thread_pool_push scan.local_thread_pool e.1 }
        { pool with queue := pool.queue ++ [e.1] } (by simp [g_thread_pool_push, hp])
      simp only [dir_map_loop, hcb, List.nil_append]
      refine ⟨h1, h2, ?_⟩
      rw [h3]
      simp

/-- The trace of `local_scan_start` on a directory target without the threaded flag. -/
theorem local_scan_start_directory_non_threaded (h : host) (scan : umwsu_scan)
    (st_mode : Nat) (hstat : h.stat scan.path = some st_mode)
    (hdir : S_ISDIR st_mode = true) (hflag : scan.flags.threaded = false) :
    local_scan_start h scan =
      (UMWSU_CLEAN,
       { scan with
         callbacks := scan.callbacks ++
           [{ callback := umwsu_scan_callback_t.alert_callback, callback_data := none },
            { callback := umwsu_scan_callback_t.quarantine_callback, callback_data := none }],
         local_thread_pool := none, local_private_magic_key := none },
       (non_directory_entries (h.dir_entries scan.path scan.flags.recurse)).flatMap
         (fun e => (local_scan_file h
           { scan with
             callbacks := scan.callbacks ++
               [{ callback := umwsu_scan_callback_t.alert_callback, callback_data := none },
                { callback := umwsu_scan_callback_t.quarantine_callback,
                  callback_data := none }],
             local_thread_pool := none, local_private_magic_key := none } none e.1).2)) := by
  unfold local_scan_start
  simp only [umwsu_scan_add_callback, hflag, hstat, S_ISREG_of_S_ISDIR st_mode hdir, hdir,
    Bool.false_eq_true, if_false, if_true, dir_map, dir_map_loop_non_threaded,
    List.nil_append, List.append_assoc, List.cons_append]

theorem delivered_reports_flatMap {α : Type} (cb : umwsu_scan_callback_t)
    (data : Option Nat) (f : α → List event) (l : List α) :
    delivered_reports cb data (l.flatMap f) =
      l.flatMap (fun a => delivered_reports cb data (f a)) := by
  induction l with
  | nil => rfl
  | cons a l ih => simp [List.flatMap_cons, delivered_reports_append, ih]

/-- C8: on a directory target scanned without the threaded flag, the paths of the
reports delivered to an observer that is registered once on the session are, in order
of delivery, the paths of the entries the walker yields that are not directories, in
the order the walker yields them. -/
theorem local_scan_start_non_threaded_delivery_order (h : host) (scan : umwsu_scan)
    (st_mode : Nat) (cb : umwsu_scan_callback_t) (data : Option Nat)
    (hstat : h.stat scan.path = some st_mode) (hdir : S_ISDIR st_mode = true)
    (hflag : scan.flags.threaded = false)
    (hobs : (local_scan_start h scan).2.1.callbacks.count
      { callback := cb, callback_data := data } = 1) :
    (delivered_reports cb data (local_scan_start h scan).2.2).map (fun r => r.path) =
      (non_directory_entries (h.dir_entries scan.path scan.flags.recurse)).map
        (fun e => some e.1) := by
  rw [local_scan_start_directory_non_threaded h scan st_mode hstat hdir hflag] at hobs ⊢
  simp only at hobs ⊢
  rw [delivered_reports_flatMap, List.map_flatMap]
  simp only [delivered_reports_local_scan_file, hobs, List.replicate_one]
  induction non_directory_entries (h.dir_entries scan.path scan.flags.recurse) with
  | nil => rfl
  | cons e rest ih => simp [List.flatMap_cons, ih]

/-- C8 at a concrete session: a directory that yields a file, a sub-directory and a
second file. -/
theorem local_scan_start_non_threaded_delivery_order_witness :
    (delivered_reports (umwsu_scan_callback_t.user 1) (some 7)
      (local_scan_start host_directory
        (session_one_observer (umwsu_resolving (some [module_clean "clamav"])) "/srv"
          { threaded := false, recurse := true })).2.2).map (fun r => r.path) =
      [some "/srv/a", some "/srv/b"] :=
  local_scan_start_non_threaded_delivery_order host_directory
    (session_one_observer (umwsu_resolving (some [module_clean "clamav"])) "/srv"
      { threaded := false, recurse := true })
    0o040755 (umwsu_scan_callback_t.user 1) (some 7) rfl (by decide) rfl (by decide)

theorem get_private_magic_callbacks (scan : umwsu_scan) (thread : Nat) (opened : Option Nat) :
    (get_private_magic scan thread opened).2.1.callbacks = scan.callbacks ∧
    (get_private_magic scan thread opened).2.2.filter is_callback_event = [] := by
  unfold get_private_magic
  cases g_private_get scan.local_private_magic_key thread <;> simp [is_callback_event]

/-- The reports the pool delivers to an observer registered once: one per scheduled
item, for the path of that item, in schedule order. -/
theorem delivered_reports_thread_pool_run (h : host) (cb : umwsu_scan_callback_t)
    (data : Option Nat) :
    ∀ (schedule : List (Nat × Option Nat × String)) (scan : umwsu_scan),
      scan.callbacks.count { callback := cb, callback_data := data } = 1 →
      (delivered_reports cb data (thread_pool_run h schedule scan).2).map (fun r => r.path) =
        schedule.map (fun job => some job.2.2) := by
  intro schedule
  induction schedule with
  | nil => intro scan _; rfl
  | cons job rest ih =>
    intro scan hobs
    obtain ⟨hcbs, hnone⟩ := get_private_magic_callbacks scan job.1 job.2.1
    simp only [thread_pool_run, local_scan_entry_thread, delivered_reports_append,
      List.map_append, List.map_cons]
    rw [delivered_reports_of_no_callback _ _ _ hnone, delivered_reports_local_scan_file,
      hcbs, hobs, ih _ (by rw [hcbs]; exact hobs)]
    rfl

/-- The result of `local_scan_start` on a directory target with the threaded flag. -/
theorem local_scan_start_directory_threaded (h : host) (scan : umwsu_scan)
    (st_mode : Nat) (hstat : h.stat scan.path = some st_mode)
    (hdir : S_ISDIR st_mode = true) (hflag : scan.flags.threaded = true) :
    (local_scan_start h scan).1 = UMWSU_CLEAN ∧
    (local_scan_start h scan).2.2 = [] ∧
    (local_scan_start h scan).2.1.callbacks =
      scan.callbacks ++
        [{ callback := umwsu_scan_callback_t.alert_callback, callback_data := none },
         { callback := umwsu_scan_callback_t.quarantine_callback, callback_data := none }] ∧
    (local_scan_start h scan).2.1.local_thread_pool =
      some { max_threads := get_max_threads,
             queue := (non_directory_entries
               (h.dir_entries scan.path scan.flags.recurse)).map (fun e => e.1) } := by
  obtain ⟨h1, h2, h3⟩ := dir_map_loop_threaded h (h.dir_entries scan.path scan.flags.recurse)
    { scan with
      callbacks := scan.callbacks ++
        [{ callback := umwsu_scan_callback_t.alert_callback, callback_data := none },
         { callback := umwsu_scan_callback_t.quarantine_callback, callback_data := none }],
      local_thread_pool := some { max_threads := get_max_threads, queue := [] },
      local_private_magic_key := some { slots := [] } }
    { max_threads := get_max_threads, queue := [] } rfl
  unfold local_scan_start
  simp only [umwsu_scan_add_callback, hflag, hstat, S_ISREG_of_S_ISDIR st_mode hdir, hdir,
    Bool.false_eq_true, if_false, if_true, dir_map, List.nil_append, List.append_assoc,
    List.cons_append]
  simp only [List.nil_append] at h3
  exact ⟨trivial, h1, h2, h3⟩

/-- C10: on a directory target scanned with the threaded flag, `local_scan_start`
itself delivers nothing and leaves on the pool one copy of the path of every entry
that is not a directory. When the pool then runs its worker function once per pushed
item, in any order and on any threads, the multiset of the paths of the reports
delivered to an observer registered once is the multiset of the paths of the entries
that are not directories. -/
theorem local_scan_start_threaded_delivers_each_file_once (h : host) (scan : umwsu_scan)
    (st_mode : Nat) (cb : umwsu_scan_callback_t) (data : Option Nat)
    (pool : GThreadPool) (schedule : List (Nat × Option Nat × String))
    (hstat : h.stat scan.path = some st_mode) (hdir : S_ISDIR st_mode = true)
    (hflag : scan.flags.threaded = true)
    (hobs : (local_scan_start h scan).2.1.callbacks.count
      { callback := cb, callback_data := data } = 1)
    (hpool : (local_scan_start h scan).2.1.local_thread_pool = some pool)
    (hsched : Multiset.ofList (schedule.map (fun job => job.2.2)) =
      Multiset.ofList pool.queue) :
    delivered_reports cb data (local_scan_start h scan).2.2 = [] ∧
    pool.queue =
      (non_directory_entries (h.dir_entries scan.path scan.flags.recurse)).map
        (fun e => e.1) ∧
    Multiset.ofList
        ((delivered_reports cb data
          (thread_pool_run h schedule (local_scan_start h scan).2.1).2).map
            (fun r => r.path)) =
      Multiset.ofList
        ((non_directory_entries (h.dir_entries scan.path scan.flags.recurse)).map
          (fun e => some e.1)) := by
  obtain ⟨_, htrace, _, hq⟩ := local_scan_start_directory_threaded h scan st_mode hstat hdir hflag
  rw [hq] at hpool
  have hqueue : pool.queue =
      (non_directory_entries (h.dir_entries scan.path scan.flags.recurse)).map
        (fun e => e.1) := by
    have := Option.some.inj hpool
    rw [← this]
  refine ⟨by rw [htrace]; rfl, hqueue, ?_⟩
  rw [delivered_reports_thread_pool_run h cb data schedule _ hobs]
  rw [hqueue] at hsched
  have hmap := congrArg (Multiset.map (fun p : String => some p)) hsched
  simpa [Multiset.map_coe, List.map_map, Function.comp_def] using hmap

/-- C10 at a concrete session: the pool takes the two files of the directory in
reverse order, on two threads. -/
theorem local_scan_start_threaded_delivers_each_file_once_witness :
    Multiset.ofList
        ((delivered_reports (umwsu_scan_callback_t.user 1) (some 7)
          (thread_pool_run host_directory [(1, some 11, "/srv/b"), (2, some 12, "/srv/a")]
            (local_scan_start host_directory
              (session_one_observer (umwsu_resolving (some [module_clean "clamav"])) "/srv"
                { threaded := true, recurse := true })).2.1).2).map
            (fun r => r.path)) =
      Multiset.ofList [some "/srv/a", some "/srv/b"] :=
  (local_scan_start_threaded_delivers_each_file_once host_directory
    (session_one_observer (umwsu_resolving (some [module_clean "clamav"])) "/srv"
      { threaded := true, recurse := true })
    0o040755 (umwsu_scan_callback_t.user 1) (some 7)
    { max_threads := 8, queue := ["/srv/a", "/srv/b"] }
    [(1, some 11, "/srv/b"), (2, some 12, "/srv/a")]
    rfl (by decide) rfl (by decide) (by decide)
    (Multiset.coe_eq_coe.2 (List.Perm.swap _ _ _))).2.2

/-! ## The remote scan path -/

/-- The handler of `SCAN_FILE` on a frame that has the `Status` and `Action` headers:
one call of `umwsu_scan_call_callbacks` with the report built from the headers. -/
theorem remote_scan_cb_scan_file_eq (status_of_int : Int → umwsu_status)
    (h : protocol_handler) (scan : umwsu_scan) (status action : String)
    (hs : protocol_handler_header_value h "Status" = some status)
    (ha : protocol_handler_header_value h "Action" = some action) :
    remote_scan_cb_scan_file status_of_int h scan =
      some (umwsu_scan_call_callbacks scan
        { path := protocol_handler_header_value h "Path",
          status := status_of_int (atoi status),
          action := atoi action,
          mod_name := some "unknown",
          mod_report := protocol_handler_header_value h "X-Status" }) := by
  unfold remote_scan_cb_scan_file
  simp only [hs, ha]
  rfl

theorem header_value_of_has_header (frame : protocol_frame) (h : protocol_handler)
    (name : String) (hh : has_header frame name = true) (hframe : h.headers = frame.headers) :
    ∃ v, protocol_handler_header_value h name = some v ∧
      ((frame.headers.find? (fun kv => kv.1 == name)).map (fun kv => kv.2)).getD "" = v := by
  unfold has_header at hh
  unfold protocol_handler_header_value
  rw [hframe]
  cases hf : frame.headers.find? (fun kv => kv.1 == name) with
  | none =>
    rw [List.find?_eq_none] at hf
    rw [List.any_eq_true] at hh
    obtain ⟨kv, hmem, hkv⟩ := hh
    exact absurd hkv (hf kv hmem)
  | some kv => exact ⟨kv.2, by simp, by simp⟩

/-- The handler of `SCAN_FILE` on a frame that has the `Status` and `Action` headers
delivers the report the spec describes for the frame. -/
theorem remote_scan_cb_scan_file_report (status_of_int : Int → umwsu_status)
    (h : protocol_handler) (scan : umwsu_scan) (frame : protocol_frame)
    (hframe : h.headers = frame.headers)
    (hs : has_header frame "Status" = true) (ha : has_header frame "Action" = true) :
    remote_scan_cb_scan_file status_of_int h scan =
      some (umwsu_scan_call_callbacks scan (scan_file_report status_of_int frame)) := by
  obtain ⟨s, hs1, hs2⟩ := header_value_of_has_header frame h "Status" hs hframe
  obtain ⟨a, ha1, ha2⟩ := header_value_of_has_header frame h "Action" ha hframe
  rw [remote_scan_cb_scan_file_eq status_of_int h scan s a hs1 ha1]
  unfold scan_file_report protocol_handler_header_value
  rw [hs2, ha2, hframe]

/-- The handlers `remote_scan_start` registers, applied to a frame. -/
theorem protocol_handler_dispatch_three (status_of_int : Int → umwsu_status)
    (h : protocol_handler) (scan : umwsu_scan) (verb : String) :
    protocol_handler_dispatch status_of_int h scan verb
        [("SCAN_START", protocol_handler_cb_t.remote_scan_cb_scan_start),
         ("SCAN_FILE", protocol_handler_cb_t.remote_scan_cb_scan_file),
         ("SCAN_END", protocol_handler_cb_t.remote_scan_cb_scan_end)] =
      if verb = "SCAN_FILE" then remote_scan_cb_scan_file status_of_int h scan
      else some [] := by
  by_cases hv : verb = "SCAN_FILE"
  · subst hv
    simp only [protocol_handler_dispatch, protocol_handler_call, if_true]
    have h1 : ¬ ("SCAN_START" = "SCAN_FILE") := by decide
    have h2 : ¬ ("SCAN_END" = "SCAN_FILE") := by decide
    simp only [h1, h2, if_false]
    cases remote_scan_cb_scan_file status_of_int h scan <;> simp
  · have hv' : ¬ ("SCAN_FILE" = verb) := fun e => hv e.symm
    simp only [protocol_handler_dispatch, protocol_handler_call, hv, hv', if_false,
      remote_scan_cb_scan_start, remote_scan_cb_scan_end]
    split_ifs <;> simp

/-- The receive side on a stream of frames whose `SCAN_FILE` frames have the `Status`
and `Action` headers: the reports of the `SCAN_FILE` frames, in frame order. -/
theorem protocol_handler_input_reports (status_of_int : Int → umwsu_status)
    (h : protocol_handler) (scan : umwsu_scan)
    (hcb : h.callbacks =
      [("SCAN_START", protocol_handler_cb_t.remote_scan_cb_scan_start),
       ("SCAN_FILE", protocol_handler_cb_t.remote_scan_cb_scan_file),
       ("SCAN_END", protocol_handler_cb_t.remote_scan_cb_scan_end)]) :
    ∀ frames : List protocol_frame,
      (∀ f ∈ frames, f.verb = "SCAN_FILE" →
        has_header f "Status" = true ∧ has_header f "Action" = true) →
      protocol_handler_input status_of_int h scan frames =
        some ((frames.filter (fun f => decide (f.verb = "SCAN_FILE"))).flatMap
          (fun f => umwsu_scan_call_callbacks scan (scan_file_report status_of_int f))) := by
  intro frames
  induction frames with
  | nil => intro _; rfl
  | cons f rest ih =>
    intro hfull
    have ihr := ih (fun g hg => hfull g (List.mem_cons_of_mem _ hg))
    simp only [protocol_handler_input, hcb, protocol_handler_dispatch_three, ihr]
    by_cases hv : f.verb = "SCAN_FILE"
    · obtain ⟨hs, ha⟩ := hfull f (List.mem_cons_self _ _) hv
      rw [if_pos hv, remote_scan_cb_scan_file_report status_of_int _ scan f rfl hs ha]
      simp only [List.filter_cons, hv, decide_True, if_true, List.flatMap_cons]
    · rw [if_neg hv]
      simp [List.filter_cons, hv]

/-- C11: on a handler with the registrations of `remote_scan_start`, a stream of frames
whose `SCAN_FILE` frames carry the `Path`, `Status`, `X-Status` and `Action` headers
makes exactly one call of `umwsu_scan_call_callbacks` per `SCAN_FILE` frame, in frame
order, so every observer receives one report per frame in that order. The report has
the path of the `Path` header, the status and action decoded by `atoi` from the
`Status` and `Action` headers and the detail text of the `X-Status` header. Frames of
other verbs, `SCAN_START` and `SCAN_END` among them, deliver nothing. -/
theorem remote_scan_file_frames_deliver_reports (status_of_int : Int → umwsu_status)
    (h : protocol_handler) (scan : umwsu_scan) (frames : List protocol_frame)
    (hcb : h.callbacks =
      [("SCAN_START", protocol_handler_cb_t.remote_scan_cb_scan_start),
       ("SCAN_FILE", protocol_handler_cb_t.remote_scan_cb_scan_file),
       ("SCAN_END", protocol_handler_cb_t.remote_scan_cb_scan_end)])
    (hfull : ∀ f ∈ frames, f.verb = "SCAN_FILE" →
      has_header f "Path" = true ∧ has_header f "Status" = true ∧
      has_header f "X-Status" = true ∧ has_header f "Action" = true) :
    protocol_handler_input status_of_int h scan frames =
      some ((frames.filter (fun f => decide (f.verb = "SCAN_FILE"))).flatMap
        (fun f => umwsu_scan_call_callbacks scan (scan_file_report status_of_int f))) :=
  protocol_handler_input_reports status_of_int h scan hcb frames
    (fun f hf hv => ⟨(hfull f hf hv).2.1, (hfull f hf hv).2.2.2⟩)

/-- C11 at a concrete stream: `SCAN_START`, two `SCAN_FILE` frames and `SCAN_END` on
a session with one observer give two reports, in frame order. -/
theorem remote_scan_file_frames_deliver_reports_witness :
    protocol_handler_input status_of_priority
        (protocol_handler_add_callback
          (protocol_handler_add_callback
            (protocol_handler_add_callback (protocol_handler_new 3 3) "SCAN_START"
              protocol_handler_cb_t.remote_scan_cb_scan_start)
            "SCAN_FILE" protocol_handler_cb_t.remote_scan_cb_scan_file)
          "SCAN_END" protocol_handler_cb_t.remote_scan_cb_scan_end)
        (session_one_observer umwsu_remote "/srv" { threaded := false, recurse := true })
        [{ verb := "SCAN_START", headers := [] },
         { verb := "SCAN_FILE",
           headers := [("Path", "/srv/a"), ("Status", "1"), ("X-Status", ""), ("Action", "0")] },
         { verb := "SCAN_FILE",
           headers := [("Path", "/srv/b"), ("Status", "5"), ("X-Status", "Eicar"),
                       ("Action", "2")] },
         { verb := "SCAN_END", headers := [] }] =
      some
        [event.callback (umwsu_scan_callback_t.user 1)
           { path := some "/srv/a", status := UMWSU_CLEAN, action := 0,
             mod_name := some "unknown", mod_report := some "" } (some 7),
         event.callback (umwsu_scan_callback_t.user 1)
           { path := some "/srv/b", status := UMWSU_MALWARE, action := 2,
             mod_name := some "unknown", mod_report := some "Eicar" } (some 7)] := by
  rw [remote_scan_file_frames_deliver_reports status_of_priority _ _ _ rfl (by decide)]
  decide

theorem umwsu_status_cmp_undecided_nonneg (c : umwsu_status) :
    ¬ umwsu_status_cmp c UMWSU_UNDECIDED < 0 := by
  rw [umwsu_status_cmp_neg_iff]
  simp [umwsu_status_priority]

theorem invoked_modules_replace (path mime_type : String) (m : umwsu_module)
    (after : List umwsu_module)
    (hm : is_final_status (m.scan path mime_type).1 = false) :
    ∀ before : List umwsu_module,
      (invoked_modules path mime_type (before ++ m :: after)).map
          (fun x => event.module_scan x.name path mime_type) =
        (invoked_modules path mime_type (before ++ module_undecided m.name :: after)).map
          (fun x => event.module_scan x.name path mime_type) := by
  intro before
  induction before with
  | nil =>
    simp only [List.nil_append, invoked_modules, take_through, hm, Bool.false_eq_true,
      if_false, List.map_cons]
    have hu : is_final_status ((module_undecided m.name).scan path mime_type).1 = false := rfl
    simp only [hu, Bool.false_eq_true, if_false, List.map_cons]
    rfl
  | cons b rest ih =>
    simp only [invoked_modules] at ih
    simp only [List.cons_append, invoked_modules, take_through]
    split_ifs
    · rfl
    · exact congrArg (List.cons (event.module_scan b.name path mime_type)) ih

/-- Replacing a module by one that reports `UNDECIDED` leaves status and report of
`local_scan_apply_modules` as they are when the status current at that module is not
of lower priority than the status the module returns. -/
theorem local_scan_apply_modules_loop_replace (path mime_type : String) (m : umwsu_module)
    (after : List umwsu_module) :
    ∀ (before : List umwsu_module) (c : umwsu_status) (report : umwsu_report),
      0 ≤ umwsu_status_cmp (local_scan_apply_modules_loop path mime_type before c report).1
        (m.scan path mime_type).1 →
      (local_scan_apply_modules_loop path mime_type (before ++ m :: after) c report).1 =
        (local_scan_apply_modules_loop path mime_type
          (before ++ module_undecided m.name :: after) c report).1 ∧
      (local_scan_apply_modules_loop path mime_type (before ++ m :: after) c report).2.1 =
        (local_scan_apply_modules_loop path mime_type
          (before ++ module_undecided m.name :: after) c report).2.1 := by
  intro before
  induction before with
  | nil =>
    intro c report hcmp
    have hm : ¬ umwsu_status_cmp c (m.scan path mime_type).1 < 0 := by
      simpa [local_scan_apply_modules_loop] using hcmp
    have hu : ¬ umwsu_status_cmp c ((module_undecided m.name).scan path mime_type).1 < 0 :=
      umwsu_status_cmp_undecided_nonneg c
    simp only [List.nil_append]
    rw [local_scan_apply_modules_loop_cons, local_scan_apply_modules_loop_cons]
    simp only [hm, hu, if_false]
    split_ifs <;> exact ⟨rfl, rfl⟩
  | cons b rest ih =>
    intro c report hcmp
    simp only [List.cons_append]
    rw [local_scan_apply_modules_loop_cons] at hcmp
    rw [local_scan_apply_modules_loop_cons, local_scan_apply_modules_loop_cons]
    split_ifs at hcmp ⊢
    · exact ⟨rfl, rfl⟩
    · exact ih _ _ hcmp
    · exact ⟨rfl, rfl⟩
    · exact ih _ _ hcmp

/-- What `local_scan_apply_modules` does with a module that returns the error status
`UMWSU_EINVAL`, as far as the loop itself decides it: the status never stops the
iteration, and the modules invoked are the same as in the run where that module
returns `UNDECIDED` with no detail text. The returned status and the report are the
same as in that run whenever `umwsu_status_cmp` does not rank the error status above
the status current at that module; the loop has no branch of its own for an error
status. -/
theorem local_scan_apply_modules_error_status (path mime_type : String)
    (before after : List umwsu_module) (m : umwsu_module) (report : umwsu_report)
    (herr : (m.scan path mime_type).1 = UMWSU_EINVAL) :
    (local_scan_apply_modules path mime_type (before ++ m :: after) report).2.2 =
      (local_scan_apply_modules path mime_type
        (before ++ module_undecided m.name :: after) report).2.2 ∧
    (0 ≤ umwsu_status_cmp (local_scan_apply_modules path mime_type before report).1
        UMWSU_EINVAL →
      (local_scan_apply_modules path mime_type (before ++ m :: after) report).1 =
        (local_scan_apply_modules path mime_type
          (before ++ module_undecided m.name :: after) report).1 ∧
      (local_scan_apply_modules path mime_type (before ++ m :: after) report).2.1 =
        (local_scan_apply_modules path mime_type
          (before ++ module_undecided m.name :: after) report).2.1) := by
  constructor
  · unfold local_scan_apply_modules
    rw [local_scan_apply_modules_loop_events path mime_type _ UMWSU_UNDECIDED report rfl,
      local_scan_apply_modules_loop_events path mime_type _ UMWSU_UNDECIDED report rfl]
    exact invoked_modules_replace path mime_type m after (by rw [herr]; rfl) before
  · intro hcmp
    rw [← herr] at hcmp
    exact local_scan_apply_modules_loop_replace path mime_type m after before
      UMWSU_UNDECIDED report hcmp

/-! ## Session-level results and worker resources -/

/-- C14, the code at the failing input: the target cannot be stat-ed and the memory of
`sb.st_mode` holds the mode of a regular file. `local_scan_start` reports the failure
with `perror` and goes on: it scans the path as a file, delivers a report to every
observer and returns the status of that scan, not `UMWSU_EINVAL`. -/
theorem local_scan_start_after_failed_stat :
    ((local_scan_start host_stat_fails
        (session_one_observer (umwsu_resolving (some [module_clean "clamav"]))
          "/srv/missing" { threaded := false, recurse := false })).1,
     (local_scan_start host_stat_fails
        (session_one_observer (umwsu_resolving (some [module_clean "clamav"]))
          "/srv/missing" { threaded := false, recurse := false })).2.2) =
      (UMWSU_CLEAN,
       [event.perror_stat,
        event.module_scan "clamav" "/srv/missing" "text/plain",
        event.callback (umwsu_scan_callback_t.user 1)
          { path := some "/srv/missing", status := UMWSU_CLEAN, action := UMWSU_ACTION_NONE,
            mod_name := some "clamav", mod_report := none } (some 7),
        event.callback umwsu_scan_callback_t.alert_callback
          { path := some "/srv/missing", status := UMWSU_CLEAN, action := UMWSU_ACTION_NONE,
            mod_name := some "clamav", mod_report := none } none,
        event.callback umwsu_scan_callback_t.quarantine_callback
          { path := some "/srv/missing", status := UMWSU_CLEAN, action := UMWSU_ACTION_NONE,
            mod_name := some "clamav", mod_report := none } none]) := by
  decide

theorem local_scan_apply_modules_loop_filter (q : event → Bool)
    (hq : ∀ n p t, q (event.module_scan n p t) = false) (path mime_type : String) :
    ∀ (mods : List umwsu_module) (c : umwsu_status) (report : umwsu_report),
      (local_scan_apply_modules_loop path mime_type mods c report).2.2.filter q = [] := by
  intro mods
  induction mods with
  | nil => intro c report; rfl
  | cons mod rest ih =>
    intro c report
    rw [local_scan_apply_modules_loop_cons]
    split_ifs <;> simp [hq, ih]

/-- A kind of event that is neither a module invocation, nor a line printed, nor a
delivery does not occur in the trace of `local_scan_file`. -/
theorem local_scan_file_filter (q : event → Bool)
    (hq1 : ∀ n p t, q (event.module_scan n p t) = false)
    (hq2 : ∀ p s, q (event.print p s) = false)
    (hq3 : ∀ c r d, q (event.callback c r d) = false)
    (h : host) (scan : umwsu_scan) (magic : Option Nat) (path : String) :
    (local_scan_file h scan magic path).2.filter q = [] := by
  have hcb : ∀ report, (umwsu_scan_call_callbacks scan report).filter q = [] := by
    intro report
    unfold umwsu_scan_call_callbacks
    rw [umwsu_scan_call_callbacks_loop_eq_map]
    induction scan.callbacks with
    | nil => rfl
    | cons e rest ih => simp [hq3, ih]
  have hpr : ∀ (c : Prop) [Decidable c] (s : umwsu_status),
      (if c then [event.print path s] else []).filter q = [] := by
    intro c _ s
    split_ifs <;> simp [hq2]
  cases hres : (scan.umwsu.get_applicable_modules magic path).1 with
  | none =>
    rw [local_scan_file_none h scan magic path hres]
    simp only [List.filter_append, hcb, hpr, List.append_nil]
  | some mods =>
    rw [local_scan_file_some h scan magic path mods hres]
    simp only [List.filter_append, hcb, hpr, List.append_nil]
    exact local_scan_apply_modules_loop_filter q hq1 path _ mods UMWSU_UNDECIDED _

theorem g_private_get_set (k : GPrivate) (t v t2 : Nat) :
    g_private_get (g_private_set (some k) t (some v)) t2 =
      if t2 = t then some v else g_private_get (some k) t2 := by
  simp only [g_private_get, g_private_set]
  by_cases ht : t2 = t
  · subst ht
    simp [List.find?_cons]
  · have hne : (t == t2) = false := by simpa using fun e : t = t2 => ht e.symm
    simp only [List.find?_cons, hne, ht, if_false, List.find?_filter]
    congr 2
    funext e
    by_cases he : e.1 = t2
    · subst he
      simp [ht]
    · simp [he]

theorem get_private_magic_stored (scan : umwsu_scan) (thread : Nat) (opened : Option Nat)
    (m : Nat) (hget : g_private_get scan.local_private_magic_key thread = some m) :
    get_private_magic scan thread opened = (some m, scan, []) := by
  unfold get_private_magic
  rw [hget]

theorem get_private_magic_first (scan : umwsu_scan) (thread : Nat) (opened : Option Nat)
    (hget : g_private_get scan.local_private_magic_key thread = none) :
    get_private_magic scan thread opened =
      (opened,
       { scan with
         local_private_magic_key :=
           g_private_set scan.local_private_magic_key thread opened },
       [event.magic_open opened]) := by
  unfold get_private_magic
  rw [hget]

/-- The part of the session-level error handling that `local_scan_start` has: a
target that was stat-ed and is neither a regular file nor a directory gives
`UMWSU_EINVAL` and an empty trace. -/
theorem local_scan_start_other_file_type (h : host) (scan : umwsu_scan) (st_mode : Nat)
    (hstat : h.stat scan.path = some st_mode) (hreg : S_ISREG st_mode = false)
    (hdir : S_ISDIR st_mode = false) :
    (local_scan_start h scan).1 = UMWSU_EINVAL ∧ (local_scan_start h scan).2.2 = [] := by
  cases hflag : scan.flags.threaded <;>
    simp [local_scan_start, umwsu_scan_add_callback, hflag, hstat, hreg, hdir]

theorem card_insert_eq_card_erase_succ (S : Finset Nat) (t : Nat) :
    (insert t S).card = (S.erase t).card + 1 := by
  have h1 : insert t S = insert t (S.erase t) := by
    ext x
    simp only [Finset.mem_insert, Finset.mem_erase]
    by_cases hx : x = t <;> simp [hx]
  rw [h1, Finset.card_insert_of_not_mem (Finset.not_mem_erase t S)]

/-- The calls of `magic_open` the workers make while the pool runs a schedule, when
every call returns a handle: one for each thread of the schedule that has no handle
stored yet. -/
theorem magic_open_count (h : host) :
    ∀ (schedule : List (Nat × Option Nat × String)) (scan : umwsu_scan) (k : GPrivate),
      scan.local_private_magic_key = some k →
      (∀ job ∈ schedule, job.2.1.isSome = true) →
      ((thread_pool_run h schedule scan).2.filter is_magic_open_event).length =
        ((schedule.map (fun job => job.1)).toFinset.filter
          (fun t => g_private_get (some k) t = none)).card := by
  intro schedule
  induction schedule with
  | nil => intro scan k _ _; rfl
  | cons job rest ih =>
    intro scan k hk hopen
    have hfile : ∀ (s : umwsu_scan) (m : Option Nat),
        (local_scan_file h s m job.2.2).2.filter is_magic_open_event = [] :=
      fun s m => local_scan_file_filter is_magic_open_event (fun _ _ _ => rfl)
        (fun _ _ => rfl) (fun _ _ _ => rfl) h s m job.2.2
    have hrest : ∀ j ∈ rest, j.2.1.isSome = true :=
      fun j hj => hopen j (List.mem_cons_of_mem _ hj)
    obtain ⟨v, hv⟩ := Option.isSome_iff_exists.1 (hopen job (List.mem_cons_self _ _))
    simp only [thread_pool_run, local_scan_entry_thread, List.filter_append, hfile,
      List.append_nil, List.length_append, List.map_cons, List.toFinset_cons]
    cases hget : g_private_get scan.local_private_magic_key job.1 with
    | some m =>
      rw [get_private_magic_stored scan job.1 job.2.1 m hget]
      simp only [List.filter_nil, List.length_nil, Nat.zero_add]
      rw [ih scan k hk hrest, Finset.filter_insert]
      rw [hk] at hget
      simp [hget]
    | none =>
      rw [get_private_magic_first scan job.1 job.2.1 hget]
      rw [hk] at hget
      have hk2 : ({ scan with
          local_private_magic_key :=
            g_private_set scan.local_private_magic_key job.1 job.2.1 } : umwsu_scan
          ).local_private_magic_key =
          some { slots := (job.1, v) :: k.slots.filter (fun e => e.1 != job.1) } := by
        simp only [hk, hv]
        rfl
      rw [ih _ _ hk2 hrest, Finset.filter_insert, if_pos hget,
        card_insert_eq_card_erase_succ]
      have hset : ∀ t2 : Nat,
          g_private_get
            (some { slots := (job.1, v) :: k.slots.filter (fun e => e.1 != job.1) }) t2 =
          if t2 = job.1 then some v else g_private_get (some k) t2 :=
        fun t2 => g_private_get_set k job.1 v t2
      have hfin : (rest.map (fun job => job.1)).toFinset.filter
            (fun t => g_private_get
              (some { slots := (job.1, v) :: k.slots.filter (fun e => e.1 != job.1) }) t
                = none) =
          ((rest.map (fun job => job.1)).toFinset.filter
            (fun t => g_private_get (some k) t = none)).erase job.1 := by
        ext x
        simp only [Finset.mem_filter, Finset.mem_erase, hset]
        by_cases hx : x = job.1 <;> simp [hx]
      rw [hfin]
      simp [is_magic_open_event]
      omega

/-- Storing `NULL` under the key leaves the thread without a value. -/
theorem g_private_get_set_null (k : GPrivate) (t : Nat) :
    g_private_get (g_private_set (some k) t none) t = none := by
  have hfind : (k.slots.filter (fun e => e.1 != t)).find? (fun e => e.1 == t) = none := by
    rw [List.find?_eq_none]
    intro e he
    have hne := (List.mem_filter.1 he).2
    simpa using hne
  simp only [g_private_get, g_private_set, hfind]
  rfl

/-- C15, counterexample: `magic_open` returns `NULL` to the worker. `get_private_magic`
hands the `NULL` on and stores it, which leaves the thread without a stored handle, so
the next call of `get_private_magic` on that thread calls `magic_open` again, and it
is this later call that creates the handle when `magic_open` then succeeds. One worker
that takes three files while `magic_open` keeps returning `NULL` makes three calls of
`magic_open` and `magic_load` and never has a handle. -/
theorem get_private_magic_opens_again_after_null :
    (get_private_magic
        (local_scan_start host_directory
          (session_one_observer (umwsu_resolving (some [module_clean "clamav"])) "/srv"
            { threaded := true, recurse := true })).2.1 1 none).1 = none ∧
    g_private_get
        (get_private_magic
          (local_scan_start host_directory
            (session_one_observer (umwsu_resolving (some [module_clean "clamav"])) "/srv"
              { threaded := true, recurse := true })).2.1 1 none).2.1.local_private_magic_key
        1 = none ∧
    (get_private_magic
        (get_private_magic
          (local_scan_start host_directory
            (session_one_observer (umwsu_resolving (some [module_clean "clamav"])) "/srv"
              { threaded := true, recurse := true })).2.1 1 none).2.1 1 (some 12)).2.2 =
      [event.magic_open (some 12)] ∧
    (thread_pool_run host_directory
        [(1, none, "/srv/a"), (1, none, "/srv/b"), (1, none, "/srv/c")]
        (local_scan_start host_directory
          (session_one_observer (umwsu_resolving (some [module_clean "clamav"])) "/srv"
            { threaded := true, recurse := true })).2.1).2.filter is_magic_open_event =
      [event.magic_open none, event.magic_open none, event.magic_open none] ∧
    (([(1, none, "/srv/a"), (1, none, "/srv/b"), (1, none, "/srv/c")] :
        List (Nat × Option Nat × String)).map (fun job => job.1)).toFinset.card = 1 := by
  decide

/-- C15, amended: `get_private_magic` calls `magic_open` and `magic_load` exactly when
the thread has no handle stored. A call on a thread that has a handle stored returns
that handle, makes no call and leaves the session as it is; a call on a thread without
a stored handle calls `magic_open` once, returns what `magic_open` returned and stores
it in the slot of the thread, where the next call of that thread reads it. So while the
pool runs any schedule on the fresh key of a threaded session, with `magic_open`
returning a handle each time it is called, the number of `magic_open` calls is the
number of threads that take part, whatever the number of files. -/
theorem get_private_magic_opens_once_per_thread (h : host) (scan : umwsu_scan)
    (schedule : List (Nat × Option Nat × String))
    (hkey : scan.local_private_magic_key = some { slots := [] })
    (hopen : ∀ job ∈ schedule, job.2.1.isSome = true) :
    (∀ (s : umwsu_scan) (thread m : Nat) (opened : Option Nat),
      g_private_get s.local_private_magic_key thread = some m →
      get_private_magic s thread opened = (some m, s, [])) ∧
    (∀ (s : umwsu_scan) (k : GPrivate) (thread : Nat) (opened : Option Nat),
      s.local_private_magic_key = some k →
      g_private_get s.local_private_magic_key thread = none →
      (get_private_magic s thread opened).1 = opened ∧
      (get_private_magic s thread opened).2.2 = [event.magic_open opened] ∧
      g_private_get (get_private_magic s thread opened).2.1.local_private_magic_key
        thread = opened) ∧
    ((thread_pool_run h schedule scan).2.filter is_magic_open_event).length =
      (schedule.map (fun job => job.1)).toFinset.card := by
  refine ⟨fun s thread m opened hget => get_private_magic_stored s thread opened m hget,
    ?_, ?_⟩
  · intro s k thread opened hk hget
    rw [get_private_magic_first s thread opened hget]
    refine ⟨rfl, rfl, ?_⟩
    simp only [hk]
    cases opened with
    | none => exact g_private_get_set_null k thread
    | some v => rw [g_private_get_set, if_pos rfl]
  · rw [magic_open_count h schedule scan _ hkey hopen]
    congr 1
    apply Finset.filter_true_of_mem
    intro t _
    rfl

/-- C15, amended, at a concrete run: three files taken by two threads, with `magic_open`
returning a handle each time, make two calls of `magic_open`. -/
theorem get_private_magic_opens_once_per_thread_witness :
    ((thread_pool_run host_directory
        [(1, some 11, "/srv/a"), (2, some 12, "/srv/b"), (1, some 13, "/srv/c")]
        (local_scan_start host_directory
          (session_one_observer (umwsu_resolving (some [module_clean "clamav"])) "/srv"
            { threaded := true, recurse := true })).2.1).2.filter
        is_magic_open_event).length = 2 :=
  (get_private_magic_opens_once_per_thread host_directory
    (local_scan_start host_directory
      (session_one_observer (umwsu_resolving (some [module_clean "clamav"])) "/srv"
        { threaded := true, recurse := true })).2.1
    [(1, some 11, "/srv/a"), (2, some 12, "/srv/b"), (1, some 13, "/srv/c")]
    rfl (by decide)).2.2

theorem delivered_reports_cons_of_no_callback (cb : umwsu_scan_callback_t)
    (data : Option Nat) (e : event) (trace : List event)
    (he : is_callback_event e = false) :
    delivered_reports cb data (e :: trace) = delivered_reports cb data trace := by
  cases e <;> simp_all [delivered_reports, delivered_report, is_callback_event]

/-- The worker calls that empty a queue are calls on the waiting paths, each path
once: whatever the proposals are, the paths taken are a permutation of the queue. -/
theorem thread_pool_take_perm :
    ∀ (schedule : List (Nat × Option Nat × String)) (waiting : List String),
      ((thread_pool_take schedule waiting).map (fun job => job.2.2)).Perm waiting := by
  intro schedule
  induction schedule with
  | nil =>
    intro waiting
    simp only [thread_pool_take, List.map_map, Function.comp_def]
    have hid : (fun x : String => x) = id := rfl
    rw [hid, List.map_id]
  | cons job rest ih =>
    intro waiting
    by_cases hmem : job.2.2 ∈ waiting
    · simp only [thread_pool_take, hmem, if_true, List.map_cons]
      exact ((ih (waiting.erase job.2.2)).cons job.2.2).trans
        (List.perm_cons_erase hmem).symm
    · simp only [thread_pool_take, hmem, if_false]
      exact ih waiting

/-- Proposals that name the waiting paths, each once, are followed as they are. -/
theorem thread_pool_take_of_perm :
    ∀ (schedule : List (Nat × Option Nat × String)) (waiting : List String),
      (schedule.map (fun job => job.2.2)).Perm waiting →
      thread_pool_take schedule waiting = schedule := by
  intro schedule
  induction schedule with
  | nil =>
    intro waiting hperm
    have hnil : waiting = [] := List.Perm.eq_nil (List.Perm.symm hperm)
    subst hnil
    rfl
  | cons job rest ih =>
    intro waiting hperm
    have hmem : job.2.2 ∈ waiting := hperm.subset (List.mem_cons_self _ _)
    have hrest : (rest.map (fun job => job.2.2)).Perm (waiting.erase job.2.2) := by
      exact (List.perm_cons job.2.2).1 (hperm.trans (List.perm_cons_erase hmem))
    simp only [thread_pool_take, hmem, if_true]
    rw [ih _ hrest]

/-- The result of `umwsu_scan_finish` on a session with a pool. -/
theorem umwsu_scan_finish_pool (h : host) (schedule : List (Nat × Option Nat × String))
    (scan : umwsu_scan) (pool : GThreadPool)
    (hpool : scan.local_thread_pool = some pool) :
    umwsu_scan_finish h schedule scan =
      ({ (thread_pool_run h (thread_pool_take schedule pool.queue) scan).1 with
         local_thread_pool := some { pool with queue := [] } },
       event.thread_pool_free false true ::
         (thread_pool_run h (thread_pool_take schedule pool.queue) scan).2) := by
  unfold umwsu_scan_finish
  rw [hpool]
  simp [g_thread_pool_free]

/-- C16: on a session with a worker pool `umwsu_scan_finish` frees the pool with
`immediate` false and `wait` true, and its trace is that call followed by the worker
calls made inside it. Whatever the threads and the order in which the workers take
the items, the worker calls are calls on the paths queued before `umwsu_scan_finish`,
each path once and no other path; so the paths of the reports delivered to an
observer before `umwsu_scan_finish` returns are, as a multiset, the queued paths, and
the queue is empty when it returns: no report is left to be delivered afterwards. -/
theorem umwsu_scan_finish_waits_for_queued_files (h : host) (scan : umwsu_scan)
    (pool : GThreadPool) (schedule : List (Nat × Option Nat × String))
    (cb : umwsu_scan_callback_t) (data : Option Nat)
    (hpool : scan.local_thread_pool = some pool)
    (hobs : scan.callbacks.count { callback := cb, callback_data := data } = 1) :
    (umwsu_scan_finish h schedule scan).2 =
      event.thread_pool_free false true ::
        (thread_pool_run h (thread_pool_take schedule pool.queue) scan).2 ∧
    ((thread_pool_take schedule pool.queue).map (fun job => job.2.2)).Perm pool.queue ∧
    (umwsu_scan_finish h schedule scan).1.local_thread_pool =
      some { pool with queue := [] } ∧
    Multiset.ofList
        ((delivered_reports cb data (umwsu_scan_finish h schedule scan).2).map
          (fun r => r.path)) =
      Multiset.ofList (pool.queue.map (fun p => some p)) := by
  rw [umwsu_scan_finish_pool h schedule scan pool hpool]
  refine ⟨rfl, thread_pool_take_perm schedule pool.queue, rfl, ?_⟩
  simp only
  rw [delivered_reports_cons_of_no_callback cb data (event.thread_pool_free false true) _ rfl,
    delivered_reports_thread_pool_run h cb data _ scan hobs]
  have hmap := congrArg (Multiset.map (fun p : String => some p))
    (Multiset.coe_eq_coe.2 (thread_pool_take_perm schedule pool.queue))
  simpa [Multiset.map_coe, List.map_map, Function.comp_def] using hmap

/-- C16 at a concrete session: a threaded scan of a directory with two files, finished
while both are still queued; the proposals name one of the two files and a path that
was never queued. Both files are reported before `umwsu_scan_finish` returns, the
other path is not. -/
theorem umwsu_scan_finish_waits_for_queued_files_witness :
    Multiset.ofList
        ((delivered_reports (umwsu_scan_callback_t.user 1) (some 7)
          (umwsu_scan_finish host_directory
            [(1, some 11, "/srv/b"), (2, some 12, "/tmp/never-queued")]
            (local_scan_start host_directory
              (session_one_observer (umwsu_resolving (some [module_clean "clamav"])) "/srv"
                { threaded := true, recurse := true })).2.1).2).map
          (fun r => r.path)) =
      Multiset.ofList [some "/srv/a", some "/srv/b"] :=
  (umwsu_scan_finish_waits_for_queued_files host_directory
    (local_scan_start host_directory
      (session_one_observer (umwsu_resolving (some [module_clean "clamav"])) "/srv"
        { threaded := true, recurse := true })).2.1
    { max_threads := 8, queue := ["/srv/a", "/srv/b"] }
    [(1, some 11, "/srv/b"), (2, some 12, "/tmp/never-queued")]
    (umwsu_scan_callback_t.user 1) (some 7) rfl (by decide)).2.2.2

/-- C17, the code at the failing input: a threaded session on a directory is started
and finished twice. The first `umwsu_scan_finish` frees the pool; the session keeps
the pointer, so the second one calls `g_thread_pool_free` on the same pool again. -/
theorem umwsu_scan_finish_twice_frees_twice :
    (umwsu_scan_finish host_directory []
        (umwsu_scan_finish host_directory [(1, some 11, "/srv/a"), (2, some 12, "/srv/b")]
          (local_scan_start host_directory
            (session_one_observer (umwsu_resolving (some [module_clean "clamav"])) "/srv"
              { threaded := true, recurse := true })).2.1).1).2 =
      [event.thread_pool_free false true] ∧
    (((umwsu_scan_finish host_directory [(1, some 11, "/srv/a"), (2, some 12, "/srv/b")]
          (local_scan_start host_directory
            (session_one_observer (umwsu_resolving (some [module_clean "clamav"])) "/srv"
              { threaded := true, recurse := true })).2.1).2 ++
      (umwsu_scan_finish host_directory []
        (umwsu_scan_finish host_directory [(1, some 11, "/srv/a"), (2, some 12, "/srv/b")]
          (local_scan_start host_directory
            (session_one_observer (umwsu_resolving (some [module_clean "clamav"])) "/srv"
              { threaded := true, recurse := true })).2.1).1).2).filter
        is_thread_pool_free_event).length = 2 := by
  decide

/-! ## Starting a session -/

/-- C18: on a remote session whose configuration names the socket,
`umwsu_scan_start` runs `remote_scan_start` and nothing of the local path: it creates
the socket, registers handlers for exactly the verbs `SCAN_START`, `SCAN_FILE` and
`SCAN_END`, sends one `SCAN` request whose only header is `Path` with the target path
of the session, registers no observer and invokes no module. -/
theorem umwsu_scan_start_remote (h : host) (scan : umwsu_scan) (sock_path : String)
    (hremote : scan.is_remote = true)
    (hconf : scan.umwsu.conf_get "remote" "socket-path" = some sock_path) :
    umwsu_scan_start h scan = remote_scan_start h scan ∧
    umwsu_scan_start h scan =
      some (h.uninit_status,
        { scan with
          remote_sock := h.client_socket_create sock_path 10,
          remote_handler := some
            { input := h.client_socket_create sock_path 10,
              output := h.client_socket_create sock_path 10,
              callbacks :=
                [("SCAN_START", protocol_handler_cb_t.remote_scan_cb_scan_start),
                 ("SCAN_FILE", protocol_handler_cb_t.remote_scan_cb_scan_file),
                 ("SCAN_END", protocol_handler_cb_t.remote_scan_cb_scan_end)],
              headers := [] } },
        [event.client_socket_create sock_path 10,
         event.output_message "SCAN" [("Path", scan.path)]]) ∧
    (∀ r, umwsu_scan_start h scan = some r →
      r.2.2.filter is_module_scan_event = [] ∧
      r.2.2.filter is_callback_event = [] ∧
      r.2.1.callbacks = scan.callbacks) := by
  have hstart : umwsu_scan_start h scan = remote_scan_start h scan := by
    unfold umwsu_scan_start
    rw [if_pos hremote]
  have hval : remote_scan_start h scan =
      some (h.uninit_status,
        { scan with
          remote_sock := h.client_socket_create sock_path 10,
          remote_handler := some
            { input := h.client_socket_create sock_path 10,
              output := h.client_socket_create sock_path 10,
              callbacks :=
                [("SCAN_START", protocol_handler_cb_t.remote_scan_cb_scan_start),
                 ("SCAN_FILE", protocol_handler_cb_t.remote_scan_cb_scan_file),
                 ("SCAN_END", protocol_handler_cb_t.remote_scan_cb_scan_end)],
              headers := [] } },
        [event.client_socket_create sock_path 10,
         event.output_message "SCAN" [("Path", scan.path)]]) := by
    unfold remote_scan_start
    rw [hconf]
    rfl
  refine ⟨hstart, hstart.trans hval, ?_⟩
  intro r hr
  rw [hstart, hval] at hr
  cases hr
  exact ⟨rfl, rfl, rfl⟩

/-- C18 at a concrete remote session. -/
theorem umwsu_scan_start_remote_witness :
    (umwsu_scan_start host_regular_file
        (session_one_observer umwsu_remote "/srv" { threaded := false, recurse := true })).map
      (fun r => r.2.2) =
    some [event.client_socket_create "/var/run/umwsu.sock" 10,
          event.output_message "SCAN" [("Path", "/srv")]] :=
  congrArg (Option.map (fun r => r.2.2))
    (umwsu_scan_start_remote host_regular_file
      (session_one_observer umwsu_remote "/srv" { threaded := false, recurse := true })
      "/var/run/umwsu.sock" rfl rfl).2.1

/-- The observers of the session `local_scan_start` leaves. -/
theorem local_scan_start_callbacks (h : host) (scan : umwsu_scan) :
    (local_scan_start h scan).2.1.callbacks =
      scan.callbacks ++
        [{ callback := umwsu_scan_callback_t.alert_callback, callback_data := none },
         { callback := umwsu_scan_callback_t.quarantine_callback, callback_data := none }] := by
  cases hflag : scan.flags.threaded with
  | false =>
    unfold local_scan_start
    simp only [umwsu_scan_add_callback, hflag, Bool.false_eq_true, if_false, dir_map,
      dir_map_loop_non_threaded, List.append_assoc, List.cons_append, List.nil_append]
    split_ifs <;> rfl
  | true =>
    obtain ⟨_, h2, _⟩ := dir_map_loop_threaded h (h.dir_entries scan.path scan.flags.recurse)
      { scan with
        callbacks := scan.callbacks ++
          [{ callback := umwsu_scan_callback_t.alert_callback, callback_data := none },
           { callback := umwsu_scan_callback_t.quarantine_callback, callback_data := none }],
        local_thread_pool := some { max_threads := get_max_threads, queue := [] },
        local_private_magic_key := some { slots := [] } }
      { max_threads := get_max_threads, queue := [] } rfl
    unfold local_scan_start
    simp only [umwsu_scan_add_callback, hflag, if_true, dir_map, List.append_assoc,
      List.cons_append, List.nil_append]
    split_ifs
    · rfl
    · exact h2
    · rfl

/-- The trace of `local_scan_start` on a regular-file target: that of `local_scan_file`
on the session it leaves. -/
theorem local_scan_start_regular_file_trace (h : host) (scan : umwsu_scan) (st_mode : Nat)
    (hstat : h.stat scan.path = some st_mode) (hreg : S_ISREG st_mode = true) :
    (local_scan_start h scan).2.2 =
      (local_scan_file h (local_scan_start h scan).2.1 none scan.path).2 := by
  cases hflag : scan.flags.threaded with
  | false =>
    have key : local_scan_start h scan =
        ((local_scan_file h
            { scan with
              callbacks := scan.callbacks ++
                [{ callback := umwsu_scan_callback_t.alert_callback, callback_data := none },
                 { callback := umwsu_scan_callback_t.quarantine_callback,
                   callback_data := none }],
              local_thread_pool := none, local_private_magic_key := none } none scan.path).1,
         { scan with
              callbacks := scan.callbacks ++
                [{ callback := umwsu_scan_callback_t.alert_callback, callback_data := none },
                 { callback := umwsu_scan_callback_t.quarantine_callback,
                   callback_data := none }],
              local_thread_pool := none, local_private_magic_key := none },
         (local_scan_file h
            { scan with
              callbacks := scan.callbacks ++
                [{ callback := umwsu_scan_callback_t.alert_callback, callback_data := none },
                 { callback := umwsu_scan_callback_t.quarantine_callback,
                   callback_data := none }],
              local_thread_pool := none, local_private_magic_key := none } none scan.path).2) := by
      unfold local_scan_start
      simp only [umwsu_scan_add_callback, hflag, hstat, hreg, Bool.false_eq_true, if_false,
        if_true, List.nil_append, List.append_assoc, List.cons_append]
    rw [key]
  | true =>
    have key : local_scan_start h scan =
        ((local_scan_file h
            { scan with
              callbacks := scan.callbacks ++
                [{ callback := umwsu_scan_callback_t.alert_callback, callback_data := none },
                 { callback := umwsu_scan_callback_t.quarantine_callback,
                   callback_data := none }],
              local_thread_pool := some { max_threads := get_max_threads, queue := [] },
              local_private_magic_key := some { slots := [] } } none scan.path).1,
         { scan with
              callbacks := scan.callbacks ++
                [{ callback := umwsu_scan_callback_t.alert_callback, callback_data := none },
                 { callback := umwsu_scan_callback_t.quarantine_callback,
                   callback_data := none }],
              local_thread_pool := some { max_threads := get_max_threads, queue := [] },
              local_private_magic_key := some { slots := [] } },
         (local_scan_file h
            { scan with
              callbacks := scan.callbacks ++
                [{ callback := umwsu_scan_callback_t.alert_callback, callback_data := none },
                 { callback := umwsu_scan_callback_t.quarantine_callback,
                   callback_data := none }],
              local_thread_pool := some { max_threads := get_max_threads, queue := [] },
              local_private_magic_key := some { slots := [] } } none scan.path).2) := by
      unfold local_scan_start
      simp only [umwsu_scan_add_callback, hflag, hstat, hreg, if_true, List.nil_append,
        List.append_assoc, List.cons_append]
    rw [key]

theorem local_scan_start_iterate_callbacks (h : host) :
    ∀ (m : Nat) (scan : umwsu_scan),
      ((fun s => (local_scan_start h s).2.1)^[m] scan).callbacks =
        scan.callbacks ++
          (List.replicate m
            [({ callback := umwsu_scan_callback_t.alert_callback, callback_data := none } :
                callback_entry),
             { callback := umwsu_scan_callback_t.quarantine_callback,
               callback_data := none }]).flatten := by
  intro m
  induction m with
  | zero => intro scan; simp
  | succ n ih =>
    intro scan
    rw [Function.iterate_succ_apply, ih, local_scan_start_callbacks, List.replicate_succ,
      List.flatten_cons, List.append_assoc]

/-- C19: `local_scan_start` leaves the observers already registered in place and
appends `alert_callback` and then `quarantine_callback`, both with a null context. A
report handed to `umwsu_scan_call_callbacks` on the started session therefore goes to
the observers of the caller first, then to `alert_callback`, then to
`quarantine_callback`, `k + 2` deliveries for `k` observers of the caller; the report
of a regular-file target is delivered that way. Starting the same session `m` times
appends the pair `m` times. -/
theorem local_scan_start_appends_builtin_observers (h : host) (scan : umwsu_scan)
    (report : umwsu_report) (m : Nat) :
    (local_scan_start h scan).2.1.callbacks =
      scan.callbacks ++
        [{ callback := umwsu_scan_callback_t.alert_callback, callback_data := none },
         { callback := umwsu_scan_callback_t.quarantine_callback, callback_data := none }] ∧
    umwsu_scan_call_callbacks (local_scan_start h scan).2.1 report =
      umwsu_scan_call_callbacks scan report ++
        [event.callback umwsu_scan_callback_t.alert_callback report none,
         event.callback umwsu_scan_callback_t.quarantine_callback report none] ∧
    (umwsu_scan_call_callbacks (local_scan_start h scan).2.1 report).length =
      scan.callbacks.length + 2 ∧
    (∀ st_mode, h.stat scan.path = some st_mode → S_ISREG st_mode = true →
      (local_scan_start h scan).2.2 =
        (local_scan_file h (local_scan_start h scan).2.1 none scan.path).2) ∧
    ((fun s => (local_scan_start h s).2.1)^[m] scan).callbacks =
      scan.callbacks ++
        (List.replicate m
          [({ callback := umwsu_scan_callback_t.alert_callback, callback_data := none } :
              callback_entry),
           { callback := umwsu_scan_callback_t.quarantine_callback,
             callback_data := none }]).flatten := by
  have hcb := local_scan_start_callbacks h scan
  refine ⟨hcb, ?_, ?_, ?_, local_scan_start_iterate_callbacks h m scan⟩
  · unfold umwsu_scan_call_callbacks
    rw [hcb, umwsu_scan_call_callbacks_loop_eq_map, umwsu_scan_call_callbacks_loop_eq_map]
    simp
  · unfold umwsu_scan_call_callbacks
    rw [hcb, umwsu_scan_call_callbacks_loop_eq_map]
    simp
  · intro st_mode hstat hreg
    exact local_scan_start_regular_file_trace h scan st_mode hstat hreg

/-- C20: on a directory target `local_scan_start` returns `UMWSU_CLEAN`, with or
without the threaded flag, whatever the walker yields and whatever statuses the
reports of the files carry; for a directory without entries it does so with an empty
trace, that is without any report. -/
theorem local_scan_start_directory_returns_clean (h : host) (scan : umwsu_scan)
    (st_mode : Nat) (hstat : h.stat scan.path = some st_mode)
    (hdir : S_ISDIR st_mode = true) :
    (local_scan_start h scan).1 = UMWSU_CLEAN ∧
    (h.dir_entries scan.path scan.flags.recurse = [] →
      (local_scan_start h scan).2.2 = []) := by
  cases hflag : scan.flags.threaded with
  | false =>
    rw [local_scan_start_directory_non_threaded h scan st_mode hstat hdir hflag]
    refine ⟨rfl, fun hempty => ?_⟩
    simp only [hempty]
    rfl
  | true =>
    exact ⟨(local_scan_start_directory_threaded h scan st_mode hstat hdir hflag).1,
      fun _ => (local_scan_start_directory_threaded h scan st_mode hstat hdir hflag).2.1⟩

/-- C20 at a concrete session: every file of the directory is reported as malware and
the result of the scan is `UMWSU_CLEAN`. -/
theorem local_scan_start_directory_returns_clean_witness :
    (local_scan_start host_directory
        (session_one_observer (umwsu_resolving (some [module_malware "clamav"])) "/srv"
          { threaded := false, recurse := true })).1 = UMWSU_CLEAN ∧
    (delivered_reports (umwsu_scan_callback_t.user 1) (some 7)
        (local_scan_start host_directory
          (session_one_observer (umwsu_resolving (some [module_malware "clamav"])) "/srv"
            { threaded := false, recurse := true })).2.2).map (fun r => r.status) =
      [UMWSU_MALWARE, UMWSU_MALWARE] :=
  ⟨(local_scan_start_directory_returns_clean host_directory
      (session_one_observer (umwsu_resolving (some [module_malware "clamav"])) "/srv"
        { threaded := false, recurse := true }) 0o040755 rfl (by decide)).1,
   by decide⟩

/-! ## The HTTP observer -/

/-- The two outcomes of `scan_callback`. -/
theorem scan_callback_cases (lib : libarmadito) (gettimeofday : Option (Int × Int))
    (report : a6o_report) (data : scan_data) :
    ((report.status = ARMADITO_CLEAN ∧ report.progress ≠ 100 ∧
        data.last_send_progress ≠ lib.REPORT_PROGRESS_UNKNOWN ∧
        data.last_send_progress = report.progress ∧ data.last_send_time ≠ 0 ∧
        get_milliseconds gettimeofday - data.last_send_time < SEND_PERIOD) →
      scan_callback lib gettimeofday report data = (data, [])) ∧
    (¬ (report.status = ARMADITO_CLEAN ∧ report.progress ≠ 100 ∧
        data.last_send_progress ≠ lib.REPORT_PROGRESS_UNKNOWN ∧
        data.last_send_progress = report.progress ∧ data.last_send_time ≠ 0 ∧
        get_milliseconds gettimeofday - data.last_send_time < SEND_PERIOD) →
      scan_callback lib gettimeofday report data =
        ({ data with
           last_send_time := get_milliseconds gettimeofday,
           last_send_progress := report.progress },
         [(data.client, report_json lib report)])) := by
  constructor
  · intro h
    unfold scan_callback
    simp only [if_pos h]
  · intro h
    unfold scan_callback
    simp only [if_neg h]

/-- C21: `scan_callback` drops a report, pushing nothing and leaving `last_send_time`
and `last_send_progress` as they are, exactly when the status is `CLEAN`, the progress
is not 100, `last_send_progress` is known and equals the progress of the report,
`last_send_time` is not 0 and fewer than `SEND_PERIOD` = 200 milliseconds passed since
`last_send_time`. In every other case it pushes the JSON form of the report to the
client and sets `last_send_time` to the current time and `last_send_progress` to the
progress of the report. So a report that is not `CLEAN`, a report with progress 100
and a report that meets the initial context, `last_send_time` 0 or `last_send_progress`
unknown, are pushed. -/
theorem scan_callback_pushes_unless_throttled (lib : libarmadito)
    (gettimeofday : Option (Int × Int)) (report : a6o_report) (data : scan_data) :
    ((report.status = ARMADITO_CLEAN ∧ report.progress ≠ 100 ∧
        data.last_send_progress ≠ lib.REPORT_PROGRESS_UNKNOWN ∧
        data.last_send_progress = report.progress ∧ data.last_send_time ≠ 0 ∧
        get_milliseconds gettimeofday - data.last_send_time < 200) →
      scan_callback lib gettimeofday report data = (data, [])) ∧
    (¬ (report.status = ARMADITO_CLEAN ∧ report.progress ≠ 100 ∧
        data.last_send_progress ≠ lib.REPORT_PROGRESS_UNKNOWN ∧
        data.last_send_progress = report.progress ∧ data.last_send_time ≠ 0 ∧
        get_milliseconds gettimeofday - data.last_send_time < 200) →
      scan_callback lib gettimeofday report data =
        ({ data with
           last_send_time := get_milliseconds gettimeofday,
           last_send_progress := report.progress },
         [(data.client, report_json lib report)])) ∧
    ((report.status ≠ ARMADITO_CLEAN ∨ report.progress = 100 ∨ data.last_send_time = 0 ∨
        data.last_send_progress = lib.REPORT_PROGRESS_UNKNOWN) →
      (scan_callback lib gettimeofday report data).2 =
        [(data.client, report_json lib report)]) := by
  obtain ⟨h1, h2⟩ := scan_callback_cases lib gettimeofday report data
  refine ⟨h1, h2, ?_⟩
  intro h
  rw [h2]
  rintro ⟨hs, hp, hu, _, ht, _⟩
  rcases h with h | h | h | h
  · exact h hs
  · exact hp h
  · exact ht h
  · exact hu h

/-- C21 at a concrete run: the first report of a session is pushed, a clean report
with the same progress 50 milliseconds later is dropped, and the report with
progress 100 is pushed again. -/
theorem scan_callback_pushes_unless_throttled_witness :
    (scan_callback libarmadito_example (some (1000, 0)) (report_in_progress 40)
        { path := "/srv", client := 5, last_send_time := 0, last_send_progress := -1 }).1 =
      { path := "/srv", client := 5, last_send_time := 1000000, last_send_progress := 40 } ∧
    scan_callback libarmadito_example (some (1000, 50000)) (report_in_progress 40)
        { path := "/srv", client := 5, last_send_time := 1000000, last_send_progress := 40 } =
      ({ path := "/srv", client := 5, last_send_time := 1000000, last_send_progress := 40 },
       []) ∧
    (scan_callback libarmadito_example (some (1000, 60000)) (report_in_progress 100)
        { path := "/srv", client := 5, last_send_time := 1000000,
          last_send_progress := 40 }).2 =
      [(5, report_json libarmadito_example (report_in_progress 100))] :=
  ⟨congrArg Prod.fst
      ((scan_callback_pushes_unless_throttled libarmadito_example (some (1000, 0))
        (report_in_progress 40)
        { path := "/srv", client := 5, last_send_time := 0,
          last_send_progress := -1 }).2.1 (by decide)),
   (scan_callback_pushes_unless_throttled libarmadito_example (some (1000, 50000))
      (report_in_progress 40)
      { path := "/srv", client := 5, last_send_time := 1000000,
        last_send_progress := 40 }).1 (by decide),
   (scan_callback_pushes_unless_throttled libarmadito_example (some (1000, 60000))
      (report_in_progress 100)
      { path := "/srv", client := 5, last_send_time := 1000000,
        last_send_progress := 40 }).2.2 (by decide)⟩

/-! ## Database update -/

/-- The function `strncmp` finds no difference between two buffers that agree on their
first `n` bytes. -/
theorem strncmp_eq_zero_of_take_eq :
    ∀ (n : Nat) (s1 s2 : List Nat), n ≤ s1.length → n ≤ s2.length →
      s1.take n = s2.take n → strncmp s1 s2 n = some 0 := by
  intro n
  induction n with
  | zero => intro s1 s2 _ _ _; simp [strncmp]
  | succ k ih =>
    intro s1 s2 h1 h2 heq
    cases s1 with
    | nil => simp at h1
    | cons c1 r1 =>
      cases s2 with
      | nil => simp at h2
      | cons c2 r2 =>
        simp only [List.take_succ_cons, List.cons.injEq] at heq
        obtain ⟨hc, hr⟩ := heq
        subst hc
        simp only [strncmp, ne_eq, not_true_eq_false, if_false]
        split_ifs
        · rfl
        · exact ih r1 r2 (by simpa using h1) (by simpa using h2) hr

/-- The half of the documentation of `CompareWithCachedHash` that the code keeps: a
hash that equals the cached hash over its `size` bytes gives 0. -/
theorem CompareWithCachedHash_equal (env : update_host) (hash cachedHash : List Nat)
    (db_cachefile : String) (size : Int)
    (hpath : env.GetLocationCompletepath = some db_cachefile)
    (hcache : env.GetFileContent_b db_cachefile = (some cachedHash, size))
    (hsize : 0 < size) (h1 : size.toNat ≤ hash.length) (h2 : size.toNat ≤ cachedHash.length)
    (heq : hash.take size.toNat = cachedHash.take size.toNat) :
    CompareWithCachedHash env (some hash) = some 0 := by
  unfold CompareWithCachedHash
  simp only [hpath, hcache]
  have hs : ¬ size ≤ 0 := by omega
  have hb : ¬ (hash.length < size.toNat ∨ cachedHash.length < size.toNat) := by omega
  simp only [hs, hb, if_false, strncmp_eq_zero_of_take_eq size.toNat hash cachedHash h1 h2 heq]
  simp

/-- C22, the code at the failing input: the hash and the cached hash are sixteen bytes
long, agree on the first byte and on the zero byte that follows it and differ in all
fourteen later bytes. `strncmp` stops at the zero byte, so `CompareWithCachedHash`
returns 0, the result for equal hashes. -/
theorem CompareWithCachedHash_stops_at_zero_byte :
    CompareWithCachedHash update_host_ok (some hash_with_zero_byte) = some 0 ∧
    update_host_ok.GetFileContent_b "C:\\av\\dbcache" =
      (some cached_hash_with_zero_byte, 16) ∧
    hash_with_zero_byte.take 16 ≠ cached_hash_with_zero_byte.take 16 := by
  decide

/-- The steps of `update_modules_db` whose failure reaches the result: the check of
the parameter, the two downloads, the signature check, reading and hashing the
description, the comparison with the cache. -/
theorem update_modules_db_early_failures (env : update_host) :
    update_modules_db env false = some (-1) ∧
    (FAILED env.download_description = true → update_modules_db env true = some (-1)) ∧
    (FAILED env.download_description = false → FAILED env.download_signature = true →
      update_modules_db env true = some (-2)) ∧
    (FAILED env.download_description = false → FAILED env.download_signature = false →
      env.verify_file_signature < 0 → update_modules_db env true = some (-3)) ∧
    (FAILED env.download_description = false → FAILED env.download_signature = false →
      ¬ env.verify_file_signature < 0 →
      (env.GetFileContent.1 = none ∨ env.GetFileContent.2 ≤ 0) →
      update_modules_db env true = some (-4)) ∧
    (FAILED env.download_description = false → FAILED env.download_signature = false →
      ¬ env.verify_file_signature < 0 →
      ¬ (env.GetFileContent.1 = none ∨ env.GetFileContent.2 ≤ 0) →
      env.GetFileHash = none → update_modules_db env true = some (-5)) ∧
    (∀ hash res, FAILED env.download_description = false →
      FAILED env.download_signature = false →
      ¬ env.verify_file_signature < 0 →
      ¬ (env.GetFileContent.1 = none ∨ env.GetFileContent.2 ≤ 0) →
      env.GetFileHash = some hash → CompareWithCachedHash env (some hash) = some res →
      res < 0 → update_modules_db env true = some (-6)) := by
  refine ⟨by simp [update_modules_db], ?_, ?_, ?_, ?_, ?_, ?_⟩
  · intro h1
    simp [update_modules_db, h1]
  · intro h1 h2
    simp [update_modules_db, h1, h2]
  · intro h1 h2 h3
    simp [update_modules_db, h1, h2, h3]
  · intro h1 h2 h3 h4
    simp only [update_modules_db, h1, h2, h3, h4]
    simp
  · intro h1 h2 h3 h4 h5
    simp only [update_modules_db, h1, h2, h3, h4, h5]
    simp
  · intro hash res h1 h2 h3 h4 h5 h6 h7
    simp only [update_modules_db, h1, h2, h3, h4, h5, h6, h7]
    simp

set_option maxRecDepth 8000 in
/-- C23, the code at the failing inputs: runs of `update_modules_db` in which all
earlier steps succeed and one of these steps fails: parsing the description, the
download or checksum check of the packages, the copy of a database file, unloading
the service. Each run returns 0, and `update_response_cb` answers `JSON_OK`. -/
theorem update_modules_db_returns_zero_on_failure :
    update_modules_db { update_host_ok with ParseDescriptionFile := none } true = some 0 ∧
    update_response_cb { update_host_ok with ParseDescriptionFile := none } true =
      some a6o_json_status.JSON_OK ∧
    update_modules_db { update_host_ok with DownloadPackageFiles := -7 } true = some 0 ∧
    update_response_cb { update_host_ok with DownloadPackageFiles := -7 } true =
      some a6o_json_status.JSON_OK ∧
    CopyModulesDatabaseFiles { update_host_ok with CopyFileA := fun _ _ => false }
        (some [package_clamav]) 1 =
      some (0, [(some "C:\\cache\\main.cvd", some "C:\\av\\modules\\DB\\clamav\\main.cvd")]) ∧
    update_modules_db { update_host_ok with CopyFileA := fun _ _ => false } true = some 0 ∧
    update_response_cb { update_host_ok with CopyFileA := fun _ _ => false } true =
      some a6o_json_status.JSON_OK ∧
    update_modules_db { update_host_ok with ServiceUnloadProcedure := 1 } true = some 0 ∧
    update_response_cb { update_host_ok with ServiceUnloadProcedure := 1 } true =
      some a6o_json_status.JSON_OK := by
  decide
